import Mathlib

/-!
# Verification of the AI Airport Simulation core

Shallow embedding of the simulation core of the `ai-airport-simulation`
repository (`src/models/position.py`, `src/models/aircraft.py`,
`src/models/airport.py`, `src/simulation/fuel_system.py`,
`src/simulation/collision_system.py`, `src/simulation/state_manager.py`,
`src/simulation/engine.py`) together with proofs settling the claims of the
natural-language specification.

Conventions of the embedding:

* Python floats are modelled as exact rationals (`ℚ`).  None of the claims
  depends on floating-point rounding.
* Euclidean distances appear in the source only (a) compared against
  non-negative constants, and (b) as normalisation divisors.  For (a) we use
  the exact equivalence `sqrt d ⋈ c ↔ d ⋈ c*c` (for `c ≥ 0`) and compare
  squared distances; for (b) the square root is irrational over `ℚ`, so the
  functions that need its value take it as an extra argument `d`, and every
  theorem about them quantifies over all `d` with the defining hypotheses
  `0 ≤ d ∧ d * d = distSq …` (witnesses instantiate `d` at inputs whose
  distance is rational).
* Python's `random.random()` / `random.uniform` / random angles are modelled
  as explicit parameters (a draw in `[0,1]`, or a unit direction vector).
* `print` logging and the fuel-system log-throttling dictionaries have no
  effect on any aircraft, runway or gate and are not modelled.
* Python exceptions escaping a function are modelled by returning
  `(state-so-far, some errorName)`: mutations performed before the raise are
  kept, matching Python's in-place object mutation.
-/

/-- 2-D point, from `src/models/position.py` (`Position`). -/
structure Position where
  x : ℚ
  y : ℚ
  deriving Repr, DecidableEq

/-- Squared Euclidean distance.  The source's `Position.distance_to` is
`sqrt (distSq)`; every comparison `distance_to ⋈ c` in the source (with
`c ≥ 0`) is embedded as `distSq ⋈ c * c`, which is exactly equivalent. -/
def Position.distSq (p q : Position) : ℚ :=
  (p.x - q.x) ^ 2 + (p.y - q.y) ^ 2

/-- `max lo (min hi v)` clamping used throughout the source. -/
def clampQ (lo hi v : ℚ) : ℚ := max lo (min hi v)

/-- Airport dimensions from configuration (`config.airport.airport_width`,
`config.airport.airport_height`; defaults 1200 × 800 in `src/config.py`). -/
structure AirportCfg where
  width : ℚ
  height : ℚ
  deriving Repr, DecidableEq

/-- The default configuration dimensions (`AirportConfig` in `src/config.py`). -/
def defaultCfg : AirportCfg := { width := 1200, height := 800 }

/-- Aircraft lifecycle states, from `AircraftState` in
`src/models/aircraft.py`. -/
inductive AircraftState where
  | APPROACHING
  | LANDING
  | GO_AROUND
  | TAXIING_TO_GATE
  | AT_GATE
  | BOARDING_DEBOARDING
  | TAXIING_TO_RUNWAY
  | TAKING_OFF
  | HOLDING
  | CRASHED
  | DEPARTED
  deriving Repr, DecidableEq

/-- Runway states, from `RunwayState` in `src/models/airport.py`. -/
inductive RunwayState where
  | AVAILABLE
  | OCCUPIED_LANDING
  | OCCUPIED_TAKEOFF
  deriving Repr, DecidableEq

/-- An aircraft, from the `Aircraft` dataclass in `src/models/aircraft.py`.
Python aircraft ids are strings (`uuid4()[:8]`).  The dynamic attribute
`waiting_for_runway` is only ever set to `True` and later `delattr`-ed, so
attribute presence coincides with truth and it is modelled as a `Bool`.
Fields that never influence any claim (callsign, aircraft type) are kept out;
`passenger_count` is kept because boarding time depends on it. -/
structure Aircraft where
  id : String
  position : Position
  target_position : Position
  speed : ℚ := 150
  state : AircraftState
  fuel : ℚ
  assigned_runway : Option ℤ := none
  assigned_gate : Option ℤ := none
  passenger_count : ℕ := 150
  gate_arrival_time : Option ℚ := none
  fuel_at_arrival : Option ℚ := none
  target_fuel_level : Option ℚ := none
  refuel_start_time : Option ℚ := none
  refuel_completed : Bool := false
  crash_reason : Option String := none
  waiting_for_runway : Bool := false
  deriving Repr, DecidableEq

namespace Aircraft

/-- `Aircraft.is_low_fuel`: fuel below 25 %. -/
def isLowFuel (a : Aircraft) : Prop := a.fuel < 25

instance (a : Aircraft) : Decidable a.isLowFuel := by
  unfold isLowFuel; infer_instance

/-- `Aircraft.is_critical_fuel`: fuel below 15 %. -/
def isCriticalFuel (a : Aircraft) : Prop := a.fuel < 15

instance (a : Aircraft) : Decidable a.isCriticalFuel := by
  unfold isCriticalFuel; infer_instance

/-- `Aircraft.get_fuel_priority`. -/
def getFuelPriority (a : Aircraft) : ℕ :=
  if a.fuel < 10 then 5
  else if a.fuel < 15 then 4
  else if a.fuel < 25 then 3
  else if a.fuel < 50 then 2
  else 1

/-- The per-second fuel consumption rate table of `Aircraft._consume_fuel`,
including the special `HOLDING` handling (ground vs airborne holding). -/
def consumptionRate (a : Aircraft) : ℚ :=
  match a.state with
  | .HOLDING => if a.waiting_for_runway then 0.05 else 0.20
  | .APPROACHING => 0.15
  | .LANDING => 0.10
  | .GO_AROUND => 0.25
  | .TAXIING_TO_GATE => 0.02
  | .AT_GATE => 0
  | .BOARDING_DEBOARDING => 0
  | .TAXIING_TO_RUNWAY => 0.02
  | .TAKING_OFF => 0.30
  | .CRASHED => 0
  | .DEPARTED => 0

/-- `Aircraft._consume_fuel`: `self.fuel = max(0.0, self.fuel - rate * dt)`. -/
def consumeFuel (a : Aircraft) (dt : ℚ) : Aircraft :=
  { a with fuel := max 0 (a.fuel - a.consumptionRate * dt) }

/-- `Aircraft.can_safely_hold(holding_time_minutes)`.  For aircraft already
`HOLDING` and for aircraft considering holding the source computes the same
figures, keyed on the `waiting_for_runway` attribute (ground holding:
`0.05 %/s` plus 5 % margin; airborne: `0.20 %/s` plus 10 % margin). -/
def canSafelyHold (a : Aircraft) (holdingMinutes : ℚ) : Prop :=
  a.fuel ≥
    (if a.waiting_for_runway then 0.05 * (holdingMinutes * 60) + 5
     else 0.20 * (holdingMinutes * 60) + 10)

instance (a : Aircraft) (m : ℚ) : Decidable (a.canSafelyHold m) := by
  unfold canSafelyHold; infer_instance

/-- `Aircraft.get_boarding_time`: `30 + 0.1 * passengers`. -/
def getBoardingTime (a : Aircraft) : ℚ :=
  30 + a.passenger_count * 0.1

/-- The refuel-duration formula shared by `Aircraft.update_refueling` and
`Aircraft.get_refuel_time`: rate 1 %/s for ≤ 20 % needed, 0.8 %/s for ≤ 50 %,
0.6 %/s above, with a 30-second floor. -/
def refuelTimeFor (fuelAtArrival targetLevel : ℚ) : ℚ :=
  let fuelNeeded := max 0 (targetLevel - fuelAtArrival)
  let t :=
    if fuelNeeded ≤ 20 then fuelNeeded / 1
    else if fuelNeeded ≤ 50 then fuelNeeded / 0.8
    else fuelNeeded / 0.6
  max 30 t

/-- `Aircraft.get_refuel_time` (returns 0 when the gate-operation fields are
unset). -/
def getRefuelTime (a : Aircraft) : ℚ :=
  match a.fuel_at_arrival, a.target_fuel_level with
  | some fa, some tgt => refuelTimeFor fa tgt
  | _, _ => 0

/-- `Aircraft.get_total_gate_time`: `max(boarding, refuel) + 30`. -/
def getTotalGateTime (a : Aircraft) : ℚ :=
  max a.getBoardingTime a.getRefuelTime + 30

/-- `Aircraft.is_ready_for_departure`. -/
def isReadyForDeparture (a : Aircraft) (currentTime : ℚ) : Prop :=
  match a.gate_arrival_time with
  | none => False
  | some arr =>
      currentTime - arr ≥ a.getTotalGateTime ∧
        (a.refuel_completed = true ∨ a.target_fuel_level = none)

instance (a : Aircraft) (t : ℚ) : Decidable (a.isReadyForDeparture t) :=
  match h : a.gate_arrival_time with
  | none => .isFalse (by simp [isReadyForDeparture, h])
  | some arr =>
      decidable_of_iff
        (t - arr ≥ a.getTotalGateTime ∧
          (a.refuel_completed = true ∨ a.target_fuel_level = none))
        (by simp [isReadyForDeparture, h])

/-- `Aircraft.start_gate_operations(current_time)`.  The target fuel level is
sampled from two `random.random()` draws `r₁ r₂ ∈ [0,1)` and, in the uniform
branches, a draw `u ∈ [0,1]` scaled onto the interval (`random.uniform(80,99)`
is `80 + u * 19`, `random.uniform(50,79)` is `50 + u * 29`). -/
def startGateOperations (a : Aircraft) (currentTime r1 r2 u : ℚ) : Aircraft :=
  let tgt : ℚ :=
    if r1 < 0.3 then 100
    else if r2 < 0.5 then 80 + u * 19
    else 50 + u * 29
  { a with
    gate_arrival_time := some currentTime
    fuel_at_arrival := some a.fuel
    target_fuel_level := some tgt
    refuel_start_time := some currentTime
    refuel_completed := false }

/-- `Aircraft.update_refueling(current_time, dt)`.  The source guard also
requires `fuel_at_arrival` to be set: it is set together with
`refuel_start_time` by `start_gate_operations` at every call site (a bare
`None` there would be a `TypeError` in the source). -/
def updateRefueling (a : Aircraft) (currentTime : ℚ) : Aircraft :=
  if a.state = .BOARDING_DEBOARDING && a.refuel_completed = false then
    match a.refuel_start_time, a.target_fuel_level, a.fuel_at_arrival with
    | some start, some tgt, some fa =>
        let fuelNeeded := max 0 (tgt - fa)
        let refuelTime := refuelTimeFor fa tgt
        let timeRefueling := currentTime - start
        if timeRefueling ≥ refuelTime then
          { a with fuel := tgt, refuel_completed := true }
        else
          let progress := timeRefueling / refuelTime
          { a with fuel := min tgt (fa + fuelNeeded * progress) }
    | _, _, _ => a
  else a

/-- `Aircraft.update(dt)` from `src/models/aircraft.py`.  `d` is the
Euclidean distance `sqrt (distSq position target_position)` computed inside
the source's movement branch (theorems quantify over all `d` with
`0 ≤ d ∧ d * d = distSq …`).  Movement toward the target is capped at
`speed * dt` (`min`), positions are clamped to a 20-pixel margin inside the
airport bounds except while `TAKING_OFF`, and fuel is consumed by
`_consume_fuel` except while `BOARDING_DEBOARDING`. -/
def movedPosition (a : Aircraft) (dt d : ℚ) : Position :=
  if a.position.distSq a.target_position > 5 * 5 then
    if a.position.distSq a.target_position > 0 then
      let md := min (a.speed * dt) d
      { x := a.position.x + (a.target_position.x - a.position.x) / d * md,
        y := a.position.y + (a.target_position.y - a.position.y) / d * md :
        Position }
    else a.position
  else a.position

def update (cfg : AirportCfg) (a : Aircraft) (dt d : ℚ) : Aircraft :=
  let newPos := a.movedPosition dt d
  let newPos :=
    if a.state ≠ .TAKING_OFF then
      { x := clampQ 20 (cfg.width - 20) newPos.x,
        y := clampQ 20 (cfg.height - 20) newPos.y : Position }
    else newPos
  let a := { a with position := newPos }
  if a.state = .BOARDING_DEBOARDING then a else a.consumeFuel dt

/-- The mobile states of `Aircraft.check_collision` (everything except the
two gate states and the two terminal states). -/
def mobileStates : List AircraftState :=
  [.APPROACHING, .LANDING, .GO_AROUND, .TAXIING_TO_GATE,
   .TAXIING_TO_RUNWAY, .TAKING_OFF, .HOLDING]

/-- `Aircraft.check_collision(other, collision_distance=10)`.  Note the
structure of the source: after excluding CRASHED/DEPARTED and both-at-gate
pairs, the guard `self.state not in mobile_states or other.state not in
mobile_states` inside the `or`-branch rejects *every* pair in which either
aircraft is at a gate, so a collision requires both aircraft mobile. -/
def checkCollision (a other : Aircraft) : Prop :=
  ¬ (a.state = .CRASHED ∨ other.state = .CRASHED) ∧
  ¬ (a.state = .DEPARTED ∨ other.state = .DEPARTED) ∧
  ¬ ((a.state = .AT_GATE ∨ a.state = .BOARDING_DEBOARDING) ∧
     (other.state = .AT_GATE ∨ other.state = .BOARDING_DEBOARDING)) ∧
  (((a.state = .AT_GATE ∨ a.state = .BOARDING_DEBOARDING) ∨
    (other.state = .AT_GATE ∨ other.state = .BOARDING_DEBOARDING)) →
      a.state ∈ mobileStates ∧ other.state ∈ mobileStates) ∧
  a.position.distSq other.position ≤ 10 * 10

instance (a b : Aircraft) : Decidable (a.checkCollision b) := by
  unfold checkCollision; infer_instance

/-- The moving states of `Aircraft.is_collision_imminent`. -/
def movingStates : List AircraftState :=
  [.APPROACHING, .HOLDING, .LANDING, .GO_AROUND,
   .TAXIING_TO_GATE, .TAXIING_TO_RUNWAY, .TAKING_OFF]

/-- `Aircraft.is_collision_imminent(other, warning_distance)`. -/
def isCollisionImminent (a other : Aircraft) (warningDistance : ℚ) : Prop :=
  ¬ (a.state = .CRASHED ∨ other.state = .CRASHED) ∧
  ¬ (a.state = .DEPARTED ∨ other.state = .DEPARTED) ∧
  ¬ (a.state = .AT_GATE ∧ other.state = .AT_GATE) ∧
  ¬ (a.state = .LANDING ∧ a.position.distSq a.target_position < 20 * 20) ∧
  ¬ (other.state = .LANDING ∧
      other.position.distSq other.target_position < 20 * 20) ∧
  a.state ∈ movingStates ∧ other.state ∈ movingStates ∧
  a.position.distSq other.position ≤ warningDistance * warningDistance

instance (a b : Aircraft) (w : ℚ) : Decidable (a.isCollisionImminent b w) := by
  unfold isCollisionImminent; infer_instance

end Aircraft

/-- A runway, from the `Runway` dataclass in `src/models/airport.py`. -/
structure Runway where
  id : ℤ
  start_position : Position
  end_position : Position
  state : RunwayState := .AVAILABLE
  occupied_by : Option String := none
  deriving Repr, DecidableEq

namespace Runway

/-- `Runway.is_available`. -/
def isAvailable (r : Runway) : Prop :=
  r.state = .AVAILABLE ∧ r.occupied_by = none

instance (r : Runway) : Decidable r.isAvailable := by
  unfold isAvailable; infer_instance

/-- `Runway.center_position`. -/
def centerPosition (r : Runway) : Position :=
  { x := (r.start_position.x + r.end_position.x) / 2,
    y := (r.start_position.y + r.end_position.y) / 2 }

end Runway

/-- A gate, from the `Gate` dataclass in `src/models/airport.py`. -/
structure Gate where
  id : ℤ
  position : Position
  occupied_by : Option String := none
  deriving Repr, DecidableEq

/-- `Gate.is_available`. -/
def Gate.isAvailable (g : Gate) : Prop := g.occupied_by = none

instance (g : Gate) : Decidable g.isAvailable := by
  unfold Gate.isAvailable; infer_instance

/-- The airport, from the `Airport` class in `src/models/airport.py`
(runway/gate/aircraft collections, simulation clock and configuration). -/
structure Airport where
  cfg : AirportCfg := defaultCfg
  runways : List Runway
  gates : List Gate := []
  aircraft : List Aircraft
  current_time : ℚ := 0
  deriving Repr, DecidableEq

namespace Airport

/-- `Airport.get_available_runway`: first available runway. -/
def getAvailableRunway (ap : Airport) : Option Runway :=
  ap.runways.find? (fun r => decide r.isAvailable)

/-- `Airport.get_available_gate`: first available gate. -/
def getAvailableGate (ap : Airport) : Option Gate :=
  ap.gates.find? (fun g => decide g.isAvailable)

/-- `Airport.get_aircraft(aircraft_id)`: lookup by id. -/
def getAircraft (ap : Airport) (i : String) : Option Aircraft :=
  ap.aircraft.find? (fun a => a.id = i)

/-- In-place mutation of one aircraft (Python mutates the object held in
`Airport.aircraft`): apply `f` to every list entry whose id is `i`. -/
def updAircraft (ap : Airport) (i : String) (f : Aircraft → Aircraft) :
    Airport :=
  { ap with aircraft := ap.aircraft.map fun a => if a.id = i then f a else a }

/-- In-place mutation of one runway, keyed by runway id. -/
def updRunway (ap : Airport) (i : ℤ) (f : Runway → Runway) : Airport :=
  { ap with runways := ap.runways.map fun r => if r.id = i then f r else r }

/-- In-place mutation of one gate, keyed by gate id. -/
def updGate (ap : Airport) (i : ℤ) (f : Gate → Gate) : Airport :=
  { ap with gates := ap.gates.map fun g => if g.id = i then f g else g }

/-- Aircraft ids are pairwise distinct (uuid4-generated in the source). -/
def idsNodup (ap : Airport) : Prop :=
  (ap.aircraft.map Aircraft.id).Nodup

instance (ap : Airport) : Decidable ap.idsNodup := by
  unfold idsNodup; infer_instance

/-- `Airport.update(dt)`: advance the clock and update every aircraft.
`dOf` supplies, per aircraft id, the square root required by that aircraft's
movement step (see `Aircraft.update`). -/
def update (ap : Airport) (dt : ℚ) (dOf : String → ℚ) : Airport :=
  { ap with
    current_time := ap.current_time + dt
    aircraft := ap.aircraft.map fun a => a.update ap.cfg dt (dOf a.id) }

end Airport

/-! ## FuelSystem (`src/simulation/fuel_system.py`)

The log-throttling dictionaries (`fuel_emergency_log_throttle` …) and all
`print` calls affect no aircraft, runway or gate and are not modelled. -/

namespace FuelSystem

/-- The aircraft-state effect of `FuelSystem.monitor_fuel_levels`: aircraft
in `CRASHED`/`DEPARTED` are skipped (`continue`); any other aircraft with
`fuel <= 0` becomes `CRASHED` with `crash_reason = "FUEL EXHAUSTION"`. -/
def monitorFuelLevels (ap : Airport) : Airport :=
  { ap with
    aircraft := ap.aircraft.map fun a =>
      if a.state = .CRASHED ∨ a.state = .DEPARTED then a
      else if a.fuel ≤ 0 ∧ a.state ≠ .CRASHED then
        { a with state := .CRASHED, crash_reason := some "FUEL EXHAUSTION" }
      else a }

/-- The critical-fuel emergency list of
`FuelSystem.handle_critical_fuel_emergencies`: aircraft with critical fuel in
`APPROACHING` or `HOLDING`. -/
def criticalList (ap : Airport) : List Aircraft :=
  ap.aircraft.filter fun a =>
    decide a.isCriticalFuel &&
      (a.state = .APPROACHING || a.state = .HOLDING)

/-- The sort key of the emergency loop (`sort(key=lambda a: a.fuel)`). -/
def fuelLe (a b : Aircraft) : Prop := a.fuel ≤ b.fuel

instance : DecidableRel fuelLe := fun a b => by
  unfold fuelLe; infer_instance

instance : IsTotal Aircraft fuelLe := ⟨fun a b => le_total a.fuel b.fuel⟩

instance : IsTrans Aircraft fuelLe := ⟨fun _ _ _ h h2 => le_trans h h2⟩

/-- `FuelSystem.find_runway_to_clear`: the first runway in `OCCUPIED_LANDING`
state whose occupant exists and does not have critical fuel. -/
def findRunwayToClear (ap : Airport) : Option Runway :=
  ap.runways.find? fun r =>
    (r.occupied_by.isSome && r.state = RunwayState.OCCUPIED_LANDING) &&
      match r.occupied_by with
      | some occId =>
          match ap.getAircraft occId with
          | some occ => decide (¬ occ.isCriticalFuel)
          | none => false
      | none => false

/-- `FuelSystem.execute_emergency_go_around(runway)`: if the runway's
occupant exists and is `LANDING`, free the runway and send the occupant into
`GO_AROUND` toward `center + 300 * gaDir` (`gaDir` models the unit vector
`(cos θ, sin θ)` of the random climb-out angle). -/
def executeEmergencyGoAround (gaDir : Position) (r : Runway) (ap : Airport) :
    Airport :=
  match r.occupied_by with
  | none => ap
  | some occId =>
      match ap.getAircraft occId with
      | none => ap
      | some occ =>
          if occ.state = .LANDING then
            let center : Position := ⟨ap.cfg.width / 2, ap.cfg.height / 2⟩
            ((ap.updRunway r.id fun rw =>
                { rw with state := .AVAILABLE, occupied_by := none }).updAircraft
              occId fun a =>
                { a with
                  assigned_runway := none
                  state := .GO_AROUND
                  target_position :=
                    ⟨center.x + gaDir.x * 300, center.y + gaDir.y * 300⟩ })
          else ap

/-- `FuelSystem.assign_emergency_landing(aircraft, runway)`. -/
def assignEmergencyLanding (planeId : String) (r : Runway) (ap : Airport) :
    Airport :=
  ((ap.updAircraft planeId fun a =>
      { a with
        assigned_runway := some r.id
        target_position := r.centerPosition
        state := .LANDING }).updRunway
    r.id fun rw =>
      { rw with state := .OCCUPIED_LANDING, occupied_by := some planeId })

/-- One iteration of the emergency loop of
`handle_critical_fuel_emergencies` for one critical aircraft. -/
def emergencyStep (gaDir : Position) (plane : Aircraft) (ap : Airport) :
    Airport :=
  match ap.getAvailableRunway with
  | some r => assignEmergencyLanding plane.id r ap
  | none =>
      match findRunwayToClear ap with
      | some r =>
          assignEmergencyLanding plane.id r
            (executeEmergencyGoAround gaDir r ap)
      | none => ap

/-- `FuelSystem.handle_critical_fuel_emergencies`: collect critical
`APPROACHING`/`HOLDING` aircraft, sort them most-critical first (ascending
fuel; Python's stable `list.sort` is modelled by the stable
`List.insertionSort`), and run `emergencyStep` for each.  `gaDirs` supplies
the random climb-out direction of the `i`-th iteration. -/
def handleCriticalFuelEmergencies (gaDirs : ℕ → Position) (ap : Airport) :
    Airport :=
  ((List.insertionSort fuelLe (criticalList ap)).enum).foldl
    (fun acc p => emergencyStep (gaDirs p.1) p.2 acc) ap

end FuelSystem

/-! ## CollisionSystem (`src/simulation/collision_system.py`)

`update_collision_zones` populates `self.collision_zones`, which no other
modelled function reads; it is not modelled.  The two throttle dictionaries
(`collision_avoidance_last_triggered`, keyed by ordered id pair, and
`emergency_separation_active`, keyed by single id) are modelled as
association lists in `CollisionSys`. -/

/-- Mutable state of the `CollisionSystem` object. -/
structure CollisionSys where
  avoidLast : List ((String × String) × ℚ) := []
  emergActive : List (String × ℚ) := []
  deriving Repr, DecidableEq

/-- Association-list lookup (Python `dict` access). -/
def alistGet {α : Type} [DecidableEq α] {β : Type} (l : List (α × β)) (k : α) :
    Option β :=
  (l.find? fun p => p.1 = k).map Prod.snd

/-- Association-list insert/overwrite (Python `dict` assignment). -/
def alistPut {α : Type} [DecidableEq α] {β : Type} (l : List (α × β)) (k : α)
    (v : β) : List (α × β) :=
  if (l.find? fun p => p.1 = k).isSome then
    l.map fun p => if p.1 = k then (k, v) else p
  else l ++ [(k, v)]

/-- All ordered pairs `(l[i], l[j])` with `i < j`, matching the nested
`for i / for j in range(i+1, …)` loops of the source. -/
def allPairs {α : Type} : List α → List (α × α)
  | [] => []
  | x :: xs => xs.map (fun y => (x, y)) ++ allPairs xs

namespace CollisionSystem

/-- The non-terminal aircraft list used by every collision-system pass. -/
def activeAircraft (ap : Airport) : List Aircraft :=
  ap.aircraft.filter fun a =>
    !(a.state = AircraftState.CRASHED) && !(a.state = AircraftState.DEPARTED)

/-- `CollisionSystem._select_avoidance_aircraft`: prefer the non-critical
aircraft; among two non-critical or two critical aircraft, the one with the
higher (or equal) fuel maneuvers. -/
def selectAvoidanceAircraft (a1 a2 : Aircraft) : Aircraft :=
  if ¬ a1.isCriticalFuel ∧ ¬ a2.isCriticalFuel then
    if a1.fuel ≥ a2.fuel then a1 else a2
  else if a1.isCriticalFuel ∧ ¬ a2.isCriticalFuel then a2
  else if ¬ a1.isCriticalFuel ∧ a2.isCriticalFuel then a1
  else if a1.fuel ≥ a2.fuel then a1 else a2

/-- `CollisionSystem._is_position_safe(position, all_aircraft,
exclude_aircraft, min_distance)`: at least `min_distance` away from the
current and target position of every other non-terminal aircraft. -/
def isPositionSafe (pos : Position) (all : List Aircraft) (excl : Aircraft)
    (minDist : ℚ) : Prop :=
  ∀ other ∈ all,
    other ≠ excl →
    ¬ (other.state = .CRASHED ∨ other.state = .DEPARTED) →
    pos.distSq other.position ≥ minDist * minDist ∧
      pos.distSq other.target_position ≥ minDist * minDist

instance (pos : Position) (all : List Aircraft) (excl : Aircraft)
    (minDist : ℚ) : Decidable (isPositionSafe pos all excl minDist) := by
  unfold isPositionSafe; infer_instance

/-- Python `range(start, stop, step)` generalised to rational endpoints
(the source instantiates it with the integer airport dimensions). -/
def pyRange (start stop step : ℚ) : List ℚ :=
  (List.range (max 0 ⌈(stop - start) / step⌉).toNat).map fun i =>
    start + step * i

/-- The squared minimum distance from `pos` to the other non-terminal
aircraft (`⊤` = Python's initial `float('inf')` when there is none).
Comparisons of these values are exactly order-isomorphic to the source's
comparisons of un-squared minimum distances. -/
def minDistSqTo (pos : Position) (all : List Aircraft) (excl : Aircraft) :
    WithTop ℚ :=
  all.foldl
    (fun acc other =>
      if other ≠ excl ∧
          ¬ (other.state = .CRASHED ∨ other.state = .DEPARTED) then
        min acc (pos.distSq other.position)
      else acc)
    ⊤

/-- `CollisionSystem._find_maximum_separation_position`: grid search (step
100, margin 100) for the position maximising the minimum distance to all
other aircraft, starting from the airport center with best value 0. -/
def findMaximumSeparationPosition (cfg : AirportCfg) (excl : Aircraft)
    (all : List Aircraft) : Position :=
  let center : Position := ⟨cfg.width / 2, cfg.height / 2⟩
  let candidates : List Position :=
    (pyRange 100 (cfg.width - 100) 100).flatMap fun x =>
      (pyRange 100 (cfg.height - 100) 100).map fun y => ⟨x, y⟩
  (candidates.foldl
    (fun acc cand =>
      let m := minDistSqTo cand all excl
      if m > acc.2 then (cand, m) else acc)
    (center, (0 : WithTop ℚ))).1

/-- `CollisionSystem._find_safe_avoidance_position`: try rings of radius
300/400/500 around the airport center at 16 angles (the irrational unit
vectors `(cos (2πi/16), sin (2πi/16))` are supplied by `ringDirs`), clamped
to an 80-pixel margin, returning the first candidate that is ≥ 180 from
every other aircraft's current and target position; otherwise fall back to
the maximum-separation grid search (so a position is always produced — the
source's `Optional` is never `None`). -/
def findSafeAvoidancePosition (ringDirs : ℕ → Position) (cfg : AirportCfg)
    (a : Aircraft) (all : List Aircraft) : Position :=
  let center : Position := ⟨cfg.width / 2, cfg.height / 2⟩
  let candidates : List Position :=
    ([300, 400, 500] : List ℚ).flatMap fun radius =>
      (List.range 16).map fun i =>
        let dir := ringDirs i
        ⟨clampQ 80 (cfg.width - 80) (center.x + dir.x * radius),
         clampQ 80 (cfg.height - 80) (center.y + dir.y * radius)⟩
  match candidates.find? fun c => decide (isPositionSafe c all a 180) with
  | some c => c
  | none => findMaximumSeparationPosition cfg a all

/-- `CollisionSystem._execute_smart_avoidance`. -/
def executeSmartAvoidance (ap : Airport) (i : String) (safePos : Position) :
    Airport :=
  ap.updAircraft i fun a =>
    { a with target_position := safePos, state := .HOLDING }

/-- `CollisionSystem.execute_emergency_avoidance(aircraft1, aircraft2)`.
`d` is `sqrt (distSq a1.position a2.position)` (the source's normalisation
divisor).  Both aircraft are pushed 250 pixels directly apart (clamped to a
50-pixel margin); a pushed position within 120 of any other aircraft is
replaced by the maximum-separation fallback; both aircraft are then
retargeted and set to `HOLDING`.  When the two aircraft coincide
(`distance > 0` fails) the source does nothing. -/
def executeEmergencyAvoidance (a1 a2 : Aircraft) (d : ℚ) (ap : Airport) :
    Airport :=
  if a1.position.distSq a2.position > 0 then
    let ux := (a1.position.x - a2.position.x) / d
    let uy := (a1.position.y - a2.position.y) / d
    let px1 := clampQ 50 (ap.cfg.width - 50) (a1.position.x + ux * 250)
    let py1 := clampQ 50 (ap.cfg.height - 50) (a1.position.y + uy * 250)
    let px2 := clampQ 50 (ap.cfg.width - 50) (a2.position.x - ux * 250)
    let py2 := clampQ 50 (ap.cfg.height - 50) (a2.position.y - uy * 250)
    let all := activeAircraft ap
    let pos1 :=
      if decide (isPositionSafe ⟨px1, py1⟩ all a1 120) then (⟨px1, py1⟩ : Position)
      else findMaximumSeparationPosition ap.cfg a1 all
    let pos2 :=
      if decide (isPositionSafe ⟨px2, py2⟩ all a2 120) then (⟨px2, py2⟩ : Position)
      else findMaximumSeparationPosition ap.cfg a2 all
    ((ap.updAircraft a1.id fun a =>
        { a with target_position := pos1, state := .HOLDING }).updAircraft
      a2.id fun a =>
        { a with target_position := pos2, state := .HOLDING })
  else ap

/-- The advisory tier inside the pair loop of
`CollisionSystem.check_imminent_collisions`: when
`is_collision_imminent(500)` holds and the ordered-pair throttle permits,
record the timestamp and append `(avoid, conflicting)` to the warning list
handed to the decision oracle. -/
def advisoryTier (cs : CollisionSys) (ap : Airport)
    (pairs : List (Aircraft × Aircraft)) (a1 a2 : Aircraft) :
    CollisionSys × Airport × List (Aircraft × Aircraft) :=
  if a1.isCollisionImminent a2 500 then
    let key := (min a1.id a2.id, max a1.id a2.id)
    let ok :=
      match alistGet cs.avoidLast key with
      | none => true
      | some t => decide (ap.current_time - t ≥ 1.5)
    if ok then
      let avoid := selectAvoidanceAircraft a1 a2
      let conflicting := if avoid = a2 then a1 else a2
      ({ cs with avoidLast := alistPut cs.avoidLast key ap.current_time },
        ap, pairs ++ [(avoid, conflicting)])
    else (cs, ap, pairs)
  else (cs, ap, pairs)

/-- One iteration of the pair loop of
`CollisionSystem.check_imminent_collisions` for the live aircraft with ids
`p.1`, `p.2`: the emergency tier (≤ 100 px, per-aircraft cool-down), else
the smart tier (≤ 200 px, per-pair 1.5 s throttle), else the advisory tier;
a throttled emergency or smart tier falls through to the advisory tier
(the source's `continue` statements sit inside the inner guards). -/
def imminentStep (dOf : String → String → ℚ) (ringDirs : ℕ → Position)
    (activeIds : List String)
    (acc : CollisionSys × Airport × List (Aircraft × Aircraft))
    (p : String × String) :
    CollisionSys × Airport × List (Aircraft × Aircraft) :=
  let cs := acc.1
  let ap := acc.2.1
  let pairs := acc.2.2
  match ap.getAircraft p.1, ap.getAircraft p.2 with
  | some a1, some a2 =>
      let dsq := a1.position.distSq a2.position
      if dsq ≤ 100 * 100 then
        if (alistGet cs.emergActive p.1).isNone &&
            (alistGet cs.emergActive p.2).isNone then
          let cs :=
            { cs with
              emergActive :=
                alistPut (alistPut cs.emergActive p.1 ap.current_time) p.2
                  ap.current_time }
          (cs, executeEmergencyAvoidance a1 a2 (dOf p.1 p.2) ap, pairs)
        else advisoryTier cs ap pairs a1 a2
      else if dsq ≤ 200 * 200 then
        let key := (min p.1 p.2, max p.1 p.2)
        let ok :=
          match alistGet cs.avoidLast key with
          | none => true
          | some t => decide (ap.current_time - t ≥ 1.5)
        if ok then
          let live := activeIds.filterMap ap.getAircraft
          let avoid := selectAvoidanceAircraft a1 a2
          let safe := findSafeAvoidancePosition ringDirs ap.cfg avoid live
          ({ cs with avoidLast := alistPut cs.avoidLast key ap.current_time },
            executeSmartAvoidance ap avoid.id safe, pairs)
        else advisoryTier cs ap pairs a1 a2
      else advisoryTier cs ap pairs a1 a2
  | _, _ => acc

/-- `CollisionSystem.check_imminent_collisions`: iterate over all ordered
pairs of the (snapshot) non-terminal aircraft list, reading the live
aircraft at each step, then expire emergency-separation entries older than
5 seconds.  Returns the updated system state, the updated airport and the
advisory warning pairs. -/
def checkImminentCollisions (dOf : String → String → ℚ)
    (ringDirs : ℕ → Position) (cs : CollisionSys) (ap : Airport) :
    CollisionSys × Airport × List (Aircraft × Aircraft) :=
  let activeIds := (activeAircraft ap).map Aircraft.id
  let r :=
    (allPairs activeIds).foldl (imminentStep dOf ringDirs activeIds)
      (cs, ap, [])
  ({ r.1 with
      emergActive :=
        r.1.emergActive.filter fun e =>
          decide (¬ (r.2.1.current_time - e.2 > 5)) },
    r.2.1, r.2.2)

/-- `CollisionSystem.check_collisions`: all colliding pairs among the
non-terminal aircraft. -/
def checkCollisions (ap : Airport) : List (Aircraft × Aircraft) :=
  (allPairs (activeAircraft ap)).filter fun p =>
    decide (p.1.checkCollision p.2)

/-- `CollisionSystem.handle_collisions(collisions)`: every aircraft of every
collided pair becomes `CRASHED` with reason `"MID-AIR COLLISION"`. -/
def handleCollisions (collisions : List (Aircraft × Aircraft)) (ap : Airport) :
    Airport :=
  collisions.foldl
    (fun acc p =>
      (acc.updAircraft p.1.id fun a =>
          { a with state := .CRASHED,
                   crash_reason := some "MID-AIR COLLISION" }).updAircraft
        p.2.id fun a =>
          { a with state := .CRASHED,
                   crash_reason := some "MID-AIR COLLISION" })
    ap

/-- The crash tier of one tick (`check_collisions` then
`handle_collisions`, as called by `SimulationEngine.update`). -/
def collisionsPass (ap : Airport) : Airport :=
  handleCollisions (checkCollisions ap) ap

end CollisionSystem

/-! ## StateManager (`src/simulation/state_manager.py`)

The source indexes `airport.runways` / `airport.gates` by the stored
`assigned_runway` / `assigned_gate` value; runway and gate ids coincide with
their list indexes by construction (`Airport._initialize_runways` /
`_initialize_gates`), so the embedding looks resources up by id.  Random
draws (`start_gate_operations` sampling, the 15 % departure chance, random
holding angles) are explicit parameters. -/

namespace StateManager

/-- `StateManager._handle_landing_completion`. -/
def handleLandingCompletion (a : Aircraft) (ap : Airport) : Airport :=
  match ap.getAvailableGate with
  | some g =>
      let ap :=
        match a.assigned_runway with
        | some rid =>
            ap.updRunway rid fun r =>
              { r with state := .AVAILABLE, occupied_by := none }
        | none => ap
      ((ap.updAircraft a.id fun x =>
          { x with
            assigned_gate := some g.id
            target_position := g.position
            state := .TAXIING_TO_GATE
            assigned_runway := none }).updGate
        g.id fun gg => { gg with occupied_by := some a.id })
  | none => ap

/-- `StateManager._handle_gate_arrival`: enter `BOARDING_DEBOARDING` and run
`start_gate_operations` (random draws `(r₁, r₂, u)`). -/
def handleGateArrival (draws : ℚ × ℚ × ℚ) (aid : String) (ap : Airport) :
    Airport :=
  ap.updAircraft aid fun x =>
    ({ x with state := .BOARDING_DEBOARDING }).startGateOperations
      ap.current_time draws.1 draws.2.1 draws.2.2

/-- `StateManager._handle_takeoff_start`.  `lenOf rid` is the runway length
`sqrt ((ex-sx)² + (ey-sy)²)` used as normalisation divisor (rational for the
source's horizontal runways).  `assigned_runway` always names an existing
runway at this transition in the source. -/
def handleTakeoffStart (lenOf : ℤ → ℚ) (a : Aircraft) (ap : Airport) :
    Airport :=
  let ap1 := ap.updAircraft a.id fun x => { x with state := .TAKING_OFF }
  match a.assigned_runway with
  | some rid =>
      match ap.runways.find? (fun r => r.id = rid) with
      | some rw =>
          let len := lenOf rid
          let dx := (rw.end_position.x - rw.start_position.x) / len
          let dy := (rw.end_position.y - rw.start_position.y) / len
          ap1.updAircraft a.id fun x =>
            { x with
              target_position :=
                ⟨rw.end_position.x + dx * 500, rw.end_position.y + dy * 500⟩ }
      | none => ap1
  | none => ap1

/-- `StateManager._handle_takeoff_completion`: depart once 100 pixels beyond
the airport bounds, freeing the assigned runway. -/
def handleTakeoffCompletion (a : Aircraft) (ap : Airport) : Airport :=
  if a.position.x < -100 ∨ a.position.x > ap.cfg.width + 100 ∨
      a.position.y < -100 ∨ a.position.y > ap.cfg.height + 100 then
    let ap1 := ap.updAircraft a.id fun x => { x with state := .DEPARTED }
    match a.assigned_runway with
    | some rid =>
        ap1.updRunway rid fun r =>
          { r with state := .AVAILABLE, occupied_by := none }
    | none => ap1
  else ap

/-- `StateManager._handle_state_transition`: dispatch on the live state of
the aircraft that reached its target. -/
def handleStateTransition (draws : ℚ × ℚ × ℚ) (lenOf : ℤ → ℚ) (aid : String)
    (ap : Airport) : Airport :=
  match ap.getAircraft aid with
  | none => ap
  | some a =>
      match a.state with
      | .LANDING => handleLandingCompletion a ap
      | .TAXIING_TO_GATE => handleGateArrival draws aid ap
      | .TAXIING_TO_RUNWAY => handleTakeoffStart lenOf a ap
      | .TAKING_OFF => handleTakeoffCompletion a ap
      | .GO_AROUND =>
          ap.updAircraft aid fun x => { x with state := .HOLDING }
      | _ => ap

/-- `StateManager.update_aircraft_states(dt)`: refuel all
`BOARDING_DEBOARDING` aircraft, then run the position-based state transition
for every aircraft within 10 pixels of its target (iterating over the live
collection, so earlier transitions are visible to later ones). -/
def updateAircraftStates (draws : String → ℚ × ℚ × ℚ) (lenOf : ℤ → ℚ)
    (ap : Airport) : Airport :=
  let ap :=
    { ap with
      aircraft := ap.aircraft.map fun (a : Aircraft) =>
        if a.state = AircraftState.BOARDING_DEBOARDING then
          a.updateRefueling ap.current_time
        else a }
  (ap.aircraft.map Aircraft.id).foldl
    (fun acc aid =>
      match acc.getAircraft aid with
      | some a =>
          if a.position.distSq a.target_position < 10 * 10 then
            handleStateTransition (draws aid) lenOf aid acc
          else acc
      | none => acc)
    ap

/-- `StateManager.assign_gates_to_waiting_aircraft`. -/
def assignGatesToWaitingAircraft (ap : Airport) : Airport :=
  ((ap.aircraft.filter fun a =>
      a.state = AircraftState.LANDING && a.assigned_gate = none).map
    Aircraft.id).foldl
    (fun acc aid =>
      match acc.getAircraft aid with
      | some a =>
          match a.assigned_runway with
          | some rid =>
              match acc.runways.find? (fun r => r.id = rid) with
              | some rw =>
                  if a.position.distSq rw.centerPosition < 20 * 20 then
                    match acc.getAvailableGate with
                    | some g =>
                        (((acc.updAircraft aid fun x =>
                            { x with
                              assigned_gate := some g.id
                              target_position := g.position
                              state := .TAXIING_TO_GATE
                              assigned_runway := none }).updGate
                          g.id fun gg =>
                            { gg with occupied_by := some aid }).updRunway
                          rid fun r =>
                            { r with state := .AVAILABLE,
                                     occupied_by := none })
                    | none => acc
                  else acc
              | none => acc
          | none => acc
      | none => acc)
    ap

/-- `StateManager._move_to_holding_area` (random holding angle supplied as
the unit vector `dir`). -/
def moveToHoldingArea (dir : Position) (aid : String) (ap : Airport) :
    Airport :=
  match ap.getAircraft aid with
  | none => ap
  | some a =>
      let ap1 :=
        match a.assigned_gate with
        | some gid =>
            (ap.updGate gid fun g =>
                { g with occupied_by := none }).updAircraft
              aid fun x => { x with assigned_gate := none }
        | none => ap
      ap1.updAircraft aid fun x =>
        { x with
          target_position :=
            ⟨ap.cfg.width / 2 + dir.x * 150, ap.cfg.height / 2 + dir.y * 150⟩
          state := .HOLDING }

/-- The departure loop of `StateManager.schedule_departures` (with its
`break` after the first aircraft that either departs or is moved to the
holding area). -/
def depLoop (depDraw : String → ℚ) (holdDirFor : String → Position) :
    List String → Airport → Airport
  | [], ap => ap
  | aid :: rest, ap =>
      match ap.getAircraft aid with
      | none => depLoop depDraw holdDirFor rest ap
      | some a =>
          if a.state = .AT_GATE then
            if depDraw aid < 0.15 then
              match ap.getAvailableRunway with
              | some rw =>
                  let ap1 :=
                    match a.assigned_gate with
                    | some gid =>
                        ap.updGate gid fun g => { g with occupied_by := none }
                    | none => ap
                  ((ap1.updAircraft aid fun x =>
                      { x with
                        assigned_runway := some rw.id
                        target_position := rw.centerPosition
                        state := .TAXIING_TO_RUNWAY
                        assigned_gate := none }).updRunway
                    rw.id fun r =>
                      { r with state := .OCCUPIED_TAKEOFF,
                               occupied_by := some aid })
              | none =>
                  if a.waiting_for_runway = false then
                    moveToHoldingArea (holdDirFor aid) aid
                      (ap.updAircraft aid fun x =>
                        { x with waiting_for_runway := true })
                  else depLoop depDraw holdDirFor rest ap
            else depLoop depDraw holdDirFor rest ap
          else depLoop depDraw holdDirFor rest ap

/-- `StateManager.schedule_departures`: promote ready
`BOARDING_DEBOARDING` aircraft to `AT_GATE`, then run the departure loop. -/
def scheduleDepartures (depDraw : String → ℚ)
    (holdDirFor : String → Position) (ap : Airport) : Airport :=
  let ap :=
    { ap with
      aircraft := ap.aircraft.map fun a =>
        if a.state = AircraftState.BOARDING_DEBOARDING &&
            decide (a.isReadyForDeparture ap.current_time) then
          { a with state := .AT_GATE }
        else a }
  depLoop depDraw holdDirFor (ap.aircraft.map Aircraft.id) ap

/-- The promotion loop of `StateManager.process_holding_aircraft` (`break`
after the first promoted aircraft). -/
def holdingLoop : List String → Airport → Airport
  | [], ap => ap
  | aid :: rest, ap =>
      match ap.getAvailableRunway with
      | some rw =>
          ((ap.updAircraft aid fun x =>
              { x with
                assigned_runway := some rw.id
                target_position := rw.centerPosition
                state := .TAXIING_TO_RUNWAY
                waiting_for_runway := false }).updRunway
            rw.id fun r =>
              { r with state := .OCCUPIED_TAKEOFF, occupied_by := some aid })
      | none => holdingLoop rest ap

/-- `StateManager.process_holding_aircraft`: at most one grounded-holding
aircraft is promoted per tick (`hasattr(a, 'waiting_for_runway')` is
modelled by `waiting_for_runway = true`, the attribute's only value). -/
def processHoldingAircraft (ap : Airport) : Airport :=
  holdingLoop
    ((ap.aircraft.filter fun a =>
        a.state = AircraftState.HOLDING && a.waiting_for_runway).map
      Aircraft.id)
    ap

end StateManager

/-! ## SimulationEngine (`src/simulation/engine.py`)

`process_atc_decision` is modelled as a function returning the airport
after the mutations the source performs, together with the name of the
Python exception that escapes, if any (`none` = normal return).  Two
exceptions can escape it:

* an out-of-range integer target makes `self.airport.runways[target]` /
  `self.airport.gates[target]` raise an uncaught `IndexError` (only the
  string-conversion failure is caught by the `try`/`except`), and
* `engine.py` never imports `RunwayState`, so line 201
  (`runway.state = RunwayState.OCCUPIED_LANDING`, in the forced-landing
  branch of `hold_pattern`) always raises `NameError` — after the aircraft
  has already been set to `LANDING` on the chosen runway. -/

/-- A decision/command target: Python `None`, an integer, or a string. -/
inductive TargetVal where
  | tnone
  | tint (n : ℤ)
  | tstr (s : String)
  deriving Repr, DecidableEq

/-- First maximal digit run of a string as a number
(`re.findall(r'\d+', target)[0]`), `none` when the string has no digit. -/
def extractFirstNat (s : String) : Option ℕ :=
  let run := (s.toList.dropWhile fun c => !c.isDigit).takeWhile Char.isDigit
  if run.isEmpty then none
  else some (run.foldl (fun acc c => acc * 10 + (c.toNat - 48)) 0)

/-- The target-conversion block of `process_atc_decision`: `None` passes
through, integers are kept, strings are searched for a number; a digit-free
string raises `ValueError`, which the surrounding `except` turns into a
dropped command. -/
def parseTarget : TargetVal → Option (Option ℤ)
  | .tnone => some none
  | .tint n => some (some n)
  | .tstr s =>
      match extractFirstNat s with
      | some n => some (some (n : ℤ))
      | none => none

/-- Python list indexing (negative indexes wrap from the end; out of range
raises `IndexError`, here `none`). -/
def pyIdx {α : Type} (l : List α) (i : ℤ) : Option α :=
  if 0 ≤ i then l[i.toNat]?
  else if (-i).toNat ≤ l.length then l[(l.length - (-i).toNat)]? else none

namespace SimulationEngine

/-- `CollisionSystem.execute_collision_avoidance(aircraft,
avoidance_position)`: since `_find_safe_avoidance_position` always produces
a position (see `findSafeAvoidancePosition`), the source's
`if safe_position:` branch is always taken and the numbered fallback
positions (`avoidancePos`) are dead code. -/
def executeCollisionAvoidance (ringDirs : ℕ → Position) (_avoidancePos : ℤ)
    (aid : String) (ap : Airport) : Airport :=
  match ap.getAircraft aid with
  | none => ap
  | some a =>
      let all := CollisionSystem.activeAircraft ap
      let safe := CollisionSystem.findSafeAvoidancePosition ringDirs ap.cfg a all
      ap.updAircraft aid fun x =>
        { x with target_position := safe, state := .HOLDING }

/-- The mutations shared by both forced-landing paths of the `hold_pattern`
branch (`engine.py` lines 198–203): assign the runway and set `LANDING`,
then hit the unimported name `RunwayState` on line 201. -/
def forcedLanding (aid : String) (rw : Runway) (ap : Airport) :
    Airport × Option String :=
  (ap.updAircraft aid fun x =>
      { x with
        assigned_runway := some rw.id
        target_position := rw.centerPosition
        state := .LANDING },
    some "NameError: name RunwayState is not defined")

/-- `SimulationEngine.process_atc_decision(aircraft, decision)`.
`holdDir` / `occDir` are the random unit vectors of the holding-pattern
circles; `ringDirs` feeds the collision-avoidance branch.  The result's
second component is the escaping exception, if any. -/
def processAtcDecision (ringDirs : ℕ → Position) (holdDir occDir : Position)
    (ap : Airport) (aid : String) (action : String) (target : TargetVal) :
    Airport × Option String :=
  match ap.getAircraft aid with
  | none => (ap, none)
  | some a =>
      match parseTarget target with
      | none => (ap, none)
      | some tgt =>
          if action = "assign_landing" then
            match tgt with
            | some n =>
                match pyIdx ap.runways n with
                | none => (ap, some "IndexError: list index out of range")
                | some rw =>
                    (ap.updAircraft aid fun x =>
                        { x with
                          assigned_runway := some n
                          target_position := rw.centerPosition
                          state := .LANDING },
                      none)
            | none => (ap, none)
          else if action = "assign_gate" then
            match tgt with
            | some n =>
                match pyIdx ap.gates n with
                | none => (ap, some "IndexError: list index out of range")
                | some g =>
                    ((ap.updAircraft aid fun x =>
                        { x with
                          assigned_gate := some n
                          target_position := g.position
                          state := .TAXIING_TO_GATE }).updGate
                      g.id fun gg => { gg with occupied_by := some aid },
                      none)
            | none => (ap, none)
          else if action = "assign_takeoff" then
            match tgt with
            | some n =>
                match pyIdx ap.runways n with
                | none => (ap, some "IndexError: list index out of range")
                | some rw =>
                    (ap.updAircraft aid fun x =>
                        { x with
                          assigned_runway := some n
                          target_position := rw.centerPosition
                          state := .TAXIING_TO_RUNWAY },
                      none)
            | none => (ap, none)
          else if action = "hold_pattern" then
            if a.canSafelyHold 10 then
              (ap.updAircraft aid fun x =>
                  { x with
                    target_position :=
                      ⟨ap.cfg.width / 2 + holdDir.x * 200,
                       ap.cfg.height / 2 + holdDir.y * 200⟩
                    state := .HOLDING },
                none)
            else
              match ap.getAvailableRunway with
              | some rw => forcedLanding aid rw ap
              | none =>
                  match pyIdx ap.runways 0 with
                  | none => (ap, some "IndexError: list index out of range")
                  | some rw =>
                      let ap1 :=
                        match rw.occupied_by with
                        | some occId =>
                            match ap.getAircraft occId with
                            | some occ =>
                                if ¬ occ.isCriticalFuel ∧
                                    occ.canSafelyHold 5 then
                                  ap.updAircraft occId fun x =>
                                    { x with
                                      target_position :=
                                        ⟨ap.cfg.width / 2 + occDir.x * 200,
                                         ap.cfg.height / 2 + occDir.y * 200⟩
                                      state := .HOLDING
                                      assigned_runway := none }
                                else ap
                            | none => ap
                        | none => ap
                      forcedLanding aid rw ap1
          else if action = "collision_avoidance" then
            match tgt with
            | some n => (executeCollisionAvoidance ringDirs n aid ap, none)
            | none => (ap, none)
          else (ap, none)

end SimulationEngine

/-! ## Basic lemmas about the embedding -/

/-- A concrete aircraft constructor shared by the scenario theorems below. -/
def mkAircraft (i : String) (st : AircraftState) (f : ℚ) (p : Position) :
    Aircraft :=
  { id := i, position := p, target_position := p, state := st, fuel := f }

theorem aircraft_updRunway (ap : Airport) (j : ℤ) (f : Runway → Runway) :
    (ap.updRunway j f).aircraft = ap.aircraft := rfl

theorem aircraft_updGate (ap : Airport) (j : ℤ) (f : Gate → Gate) :
    (ap.updGate j f).aircraft = ap.aircraft := rfl

theorem getAircraft_updRunway (ap : Airport) (j : ℤ) (f : Runway → Runway)
    (i : String) : (ap.updRunway j f).getAircraft i = ap.getAircraft i := rfl

theorem getAircraft_updGate (ap : Airport) (j : ℤ) (f : Gate → Gate)
    (i : String) : (ap.updGate j f).getAircraft i = ap.getAircraft i := rfl

theorem getAircraft_id {ap : Airport} {i : String} {x : Aircraft}
    (h : ap.getAircraft i = some x) : x.id = i := by
  have := List.find?_some h
  simpa using this

theorem getAircraft_mem {ap : Airport} {i : String} {x : Aircraft}
    (h : ap.getAircraft i = some x) : x ∈ ap.aircraft :=
  List.mem_of_find?_eq_some h

/-- With pairwise-distinct ids, looking an aircraft up by its own id finds
exactly it. -/
theorem getAircraft_of_mem_nodup {l : List Aircraft} {a : Aircraft}
    (hn : (l.map Aircraft.id).Nodup) (ha : a ∈ l) :
    l.find? (fun x => x.id = a.id) = some a := by
  induction l with
  | nil => cases ha
  | cons b t ih =>
      rw [List.map_cons, List.nodup_cons] at hn
      rcases List.mem_cons.mp ha with rfl | hat
      · simp [List.find?_cons]
      · have hb : b.id ≠ a.id := by
          intro hEq
          exact hn.1 (hEq ▸ List.mem_map_of_mem Aircraft.id hat)
        rw [List.find?_cons]
        simp only [hb, decide_eq_true_eq, if_neg]
        · exact ih hn.2 hat

theorem eq_of_mem_nodup_id {l : List Aircraft} {a x : Aircraft}
    (hn : (l.map Aircraft.id).Nodup) (ha : a ∈ l) (hx : x ∈ l)
    (h : x.id = a.id) : x = a := by
  induction l with
  | nil => cases ha
  | cons b t ih =>
      rw [List.map_cons, List.nodup_cons] at hn
      rcases List.mem_cons.mp ha with rfl | hat
      · rcases List.mem_cons.mp hx with rfl | hxt
        · rfl
        · exact absurd (h ▸ List.mem_map_of_mem Aircraft.id hxt) hn.1
      · rcases List.mem_cons.mp hx with rfl | hxt
        · exact absurd (by rw [h]; exact List.mem_map_of_mem Aircraft.id hat)
            hn.1
        · exact ih hn.2 hat hxt

/-- Every aircraft entry carrying id `i` has state `s` (used to track that
terminal aircraft stay terminal through a pass). -/
def StatePinned (ap : Airport) (i : String) (s : AircraftState) : Prop :=
  ∀ x ∈ ap.aircraft, x.id = i → x.state = s

theorem statePinned_of_mem {ap : Airport} {a : Aircraft}
    (hn : ap.idsNodup) (ha : a ∈ ap.aircraft) :
    StatePinned ap a.id a.state := fun x hx hid => by
  rw [eq_of_mem_nodup_id hn ha hx hid]

theorem statePinned_getAircraft {ap : Airport} {i : String}
    {s : AircraftState} {x : Aircraft} (hp : StatePinned ap i s)
    (hx : ap.getAircraft i = some x) : x.state = s :=
  hp x (getAircraft_mem hx) (getAircraft_id hx)

/-- Updating an aircraft with an id other than `i` (by an id-preserving
function) keeps the pin. -/
theorem statePinned_updAircraft_ne {ap : Airport} {i : String}
    {s : AircraftState} {j : String} {f : Aircraft → Aircraft}
    (hp : StatePinned ap i s) (hfid : ∀ y, (f y).id = y.id) (hij : j ≠ i) :
    StatePinned (ap.updAircraft j f) i s := by
  intro x hx hid
  simp only [Airport.updAircraft, List.mem_map] at hx
  obtain ⟨y, hy, rfl⟩ := hx
  by_cases hyj : y.id = j
  · rw [if_pos hyj] at hid ⊢
    rw [hfid y] at hid
    exact absurd (hyj.symm.trans hid) hij
  · rw [if_neg hyj] at hid ⊢
    exact hp y hy hid

/-- Updating by a state-preserving, id-preserving function keeps the pin
for any target id. -/
theorem statePinned_updAircraft_keep {ap : Airport} {i : String}
    {s : AircraftState} {j : String} {f : Aircraft → Aircraft}
    (hp : StatePinned ap i s) (hfid : ∀ y, (f y).id = y.id)
    (hfst : ∀ y, (f y).state = y.state) :
    StatePinned (ap.updAircraft j f) i s := by
  intro x hx hid
  simp only [Airport.updAircraft, List.mem_map] at hx
  obtain ⟨y, hy, rfl⟩ := hx
  by_cases hyj : y.id = j
  · rw [if_pos hyj] at hid ⊢
    rw [hfst y]
    exact hp y hy (hfid y ▸ hid)
  · rw [if_neg hyj] at hid ⊢
    exact hp y hy hid

theorem statePinned_updRunway {ap : Airport} {i : String} {s : AircraftState}
    {j : ℤ} {f : Runway → Runway} (hp : StatePinned ap i s) :
    StatePinned (ap.updRunway j f) i s := hp

theorem statePinned_updGate {ap : Airport} {i : String} {s : AircraftState}
    {j : ℤ} {f : Gate → Gate} (hp : StatePinned ap i s) :
    StatePinned (ap.updGate j f) i s := hp

/-! ## Claim C1: fuel stays within [0, 100] -/

/-- C1: for every aircraft the fuel level stays in `[0, 100]`:
`_consume_fuel` never drives fuel below 0 for any state and any `dt ≥ 0`
(the `max(0.0, …)` floor), and `update_refueling` never raises fuel above
100 — it caps fuel at the sampled `target_fuel_level`, and
`start_gate_operations` only ever samples targets in `[50, 100]`. -/
theorem C1_fuel_bounds :
    (∀ (a : Aircraft) (dt : ℚ), 0 ≤ dt → 0 ≤ (a.consumeFuel dt).fuel) ∧
    (∀ (a : Aircraft) (t tgt : ℚ), a.fuel ≤ 100 →
      a.target_fuel_level = some tgt → tgt ≤ 100 →
      (a.updateRefueling t).fuel ≤ 100) ∧
    (∀ (a : Aircraft) (t r1 r2 u : ℚ), 0 ≤ u → u ≤ 1 →
      ∀ tgt, (a.startGateOperations t r1 r2 u).target_fuel_level = some tgt →
      50 ≤ tgt ∧ tgt ≤ 100) := by
  refine ⟨?_, ?_, ?_⟩
  · intro a dt _
    exact le_max_left 0 _
  · intro a t tgt hf htgt hle
    unfold Aircraft.updateRefueling
    split
    · rcases hrs : a.refuel_start_time with _ | start <;>
        rcases hfa : a.fuel_at_arrival with _ | fa <;>
          simp only [hrs, htgt, hfa]
      · exact hf
      · exact hf
      · exact hf
      · split
        · exact hle
        · simpa using le_trans (min_le_left _ _) hle
    · exact hf
  · intro a t r1 r2 u hu0 hu1 tgt htgt
    have h19 : u * 19 ≤ 19 := by nlinarith
    have h29 : u * 29 ≤ 29 := by nlinarith
    have h19' : 0 ≤ u * 19 := by nlinarith
    have h29' : 0 ≤ u * 29 := by nlinarith
    unfold Aircraft.startGateOperations at htgt
    simp only at htgt
    split at htgt <;> [skip; split at htgt] <;>
      (injection htgt with h; subst h) <;> constructor <;> linarith

/-- Witness for C1 at concrete inputs. -/
theorem C1_fuel_bounds_witness :
    (0 ≤ (((mkAircraft "w1" .APPROACHING 50 ⟨100, 100⟩).consumeFuel 1)).fuel) ∧
    ((({ mkAircraft "w1" .BOARDING_DEBOARDING 50 ⟨100, 100⟩ with
          target_fuel_level := some 90 } : Aircraft).updateRefueling 5).fuel
        ≤ 100) ∧
    (50 ≤ (129 / 2 : ℚ) ∧ (129 / 2 : ℚ) ≤ 100) :=
  ⟨C1_fuel_bounds.1 _ 1 (by norm_num),
   C1_fuel_bounds.2.1 _ 5 90 (by norm_num [mkAircraft]) (by rfl)
     (by norm_num),
   C1_fuel_bounds.2.2 (mkAircraft "w1" .APPROACHING 50 ⟨100, 100⟩) 0
     (1 / 2) (1 / 2) (1 / 2) (by norm_num) (by norm_num) (129 / 2)
     (by norm_num [Aircraft.startGateOperations, mkAircraft])⟩

/-! ## Claim C10: refueling converges exactly to the sampled target -/

/-- C10: during `BOARDING_DEBOARDING` with a refuel in progress,
`update_refueling` keeps `fuel ≤ target_fuel_level`; once the computed
refuel time has elapsed it sets `fuel` exactly to the target and marks
`refuel_completed`; and when the sampled target is at most the arrival fuel
("refueling" downward), the fuel is set to the target immediately. -/
theorem C10_refuel_to_target (a : Aircraft) (t t0 tgt fa : ℚ)
    (hs : a.state = .BOARDING_DEBOARDING) (hc : a.refuel_completed = false)
    (hrs : a.refuel_start_time = some t0)
    (htgt : a.target_fuel_level = some tgt)
    (hfa : a.fuel_at_arrival = some fa) :
    (a.updateRefueling t).fuel ≤ tgt ∧
    (t - t0 ≥ Aircraft.refuelTimeFor fa tgt →
      (a.updateRefueling t).fuel = tgt ∧
      (a.updateRefueling t).refuel_completed = true) ∧
    (tgt ≤ fa → (a.updateRefueling t).fuel = tgt) := by
  have key : a.updateRefueling t =
      if t - t0 ≥ Aircraft.refuelTimeFor fa tgt then
        { a with fuel := tgt, refuel_completed := true }
      else
        { a with fuel := min tgt (fa + max 0 (tgt - fa) *
            ((t - t0) / Aircraft.refuelTimeFor fa tgt)) } := by
    unfold Aircraft.updateRefueling
    simp only [hs, hc, hrs, htgt, hfa, decide_True, Bool.and_self, if_true,
      ge_iff_le, decide_eq_true_eq]
  rw [key]
  refine ⟨?_, ?_, ?_⟩
  · split
    · exact le_refl tgt
    · exact min_le_left _ _
  · intro h
    rw [if_pos h]
    exact ⟨rfl, rfl⟩
  · intro h
    split
    · rfl
    · have h0 : max 0 (tgt - fa) = 0 := max_eq_left (by linarith)
      simp only [h0, zero_mul, add_zero]
      exact min_eq_left h

/-- Witness for C10: an aircraft that arrived with 90 % fuel and sampled an
80 % target has its fuel set to exactly 80 on the first refuel update. -/
theorem C10_refuel_to_target_witness :
    ((({ mkAircraft "w2" .BOARDING_DEBOARDING 90 ⟨100, 100⟩ with
          refuel_start_time := some 0
          target_fuel_level := some 80
          fuel_at_arrival := some 90 } : Aircraft).updateRefueling 10).fuel
        ≤ 80) ∧
    ((({ mkAircraft "w2" .BOARDING_DEBOARDING 90 ⟨100, 100⟩ with
          refuel_start_time := some 0
          target_fuel_level := some 80
          fuel_at_arrival := some 90 } : Aircraft).updateRefueling 10).fuel
        = 80) := by
  have h := C10_refuel_to_target
    ({ mkAircraft "w2" .BOARDING_DEBOARDING 90 ⟨100, 100⟩ with
        refuel_start_time := some 0
        target_fuel_level := some 80
        fuel_at_arrival := some 90 } : Aircraft)
    10 0 80 90 (by rfl) (by rfl) (by rfl) (by rfl) (by rfl)
  exact ⟨h.1, h.2.2 (by norm_num)⟩

theorem getAircraft_map_of_id (ap : Airport) (f : Aircraft → Aircraft)
    (hfid : ∀ y, (f y).id = y.id) (i : String) :
    ({ ap with aircraft := ap.aircraft.map f } : Airport).getAircraft i =
      (ap.getAircraft i).map f := by
  unfold Airport.getAircraft
  simp only
  rw [List.find?_map]
  have hpred : ((fun a => decide (a.id = i)) ∘ f) =
      (fun a => decide (a.id = i)) := by
    funext y
    simp [Function.comp, hfid y]
  rw [hpred]

theorem getAircraft_eq_of_mem {ap : Airport} {a : Aircraft}
    (hn : ap.idsNodup) (ha : a ∈ ap.aircraft) :
    ap.getAircraft a.id = some a :=
  getAircraft_of_mem_nodup hn ha

/-! ## Claim C4: fuel exhaustion leads to CRASHED on the next pass -/

/-- C4 counterexample: the claim quantifies over every aircraft reaching
fuel 0 in a non-CRASHED state, but `monitor_fuel_levels` *skips* `DEPARTED`
aircraft (`continue`), so a `DEPARTED` aircraft with fuel 0 — reachable by
burning the last fuel during `TAKING_OFF` in the same tick — is left
unchanged rather than set to `CRASHED`. -/
theorem C4_counterexample :
    (mkAircraft "d1" .DEPARTED 0 ⟨100, 100⟩).state ≠ .CRASHED ∧
    (mkAircraft "d1" .DEPARTED 0 ⟨100, 100⟩).fuel = 0 ∧
    (FuelSystem.monitorFuelLevels
        { runways := [],
          aircraft := [mkAircraft "d1" .DEPARTED 0 ⟨100, 100⟩] }).getAircraft
        "d1"
      = some (mkAircraft "d1" .DEPARTED 0 ⟨100, 100⟩) := by
  refine ⟨by decide, by decide, ?_⟩
  rfl

/-- C4 (amended): every aircraft whose fuel is 0 in a state that is neither
`CRASHED` nor `DEPARTED` is set to `CRASHED` with `crash_reason`
`"FUEL EXHAUSTION"` (which contains `"FUEL"`) by the next
`monitor_fuel_levels` pass. -/
theorem C4_amended (ap : Airport) (a : Aircraft) (hn : ap.idsNodup)
    (ha : a ∈ ap.aircraft) (hf : a.fuel = 0) (h1 : a.state ≠ .CRASHED)
    (h2 : a.state ≠ .DEPARTED) :
    (FuelSystem.monitorFuelLevels ap).getAircraft a.id =
      some { a with state := .CRASHED,
                    crash_reason := some "FUEL EXHAUSTION" } := by
  unfold FuelSystem.monitorFuelLevels
  rw [getAircraft_map_of_id]
  · rw [getAircraft_eq_of_mem hn ha]
    simp only [Option.map_some']
    rw [if_neg (by tauto), if_pos ⟨le_of_eq hf, h1⟩]
  · intro y
    split
    · rfl
    · split <;> rfl

/-- Witness for C4 (amended): an `APPROACHING` aircraft with fuel exactly 0
crashes with reason `"FUEL EXHAUSTION"` on the next pass. -/
theorem C4_amended_witness :
    (FuelSystem.monitorFuelLevels
        { runways := [],
          aircraft := [mkAircraft "f1" .APPROACHING 0 ⟨100, 100⟩] }).getAircraft
        "f1"
      = some { mkAircraft "f1" .APPROACHING 0 ⟨100, 100⟩ with
                state := .CRASHED,
                crash_reason := some "FUEL EXHAUSTION" } :=
  C4_amended _ (mkAircraft "f1" .APPROACHING 0 ⟨100, 100⟩) (by decide)
    (by simp) (by rfl) (by decide) (by decide)

/-! ## Claim C7: `update(0)` as identity -/

theorem movedPosition_dt_zero (a : Aircraft) (d : ℚ) (hd : 0 ≤ d) :
    a.movedPosition 0 d = a.position := by
  unfold Aircraft.movedPosition
  split_ifs with h1 h2
  · rw [mul_zero, min_eq_left hd]
    simp only [mul_zero, add_zero]
  · rfl
  · rfl

/-- C7 counterexample: the claim asserts `update(0)` changes nothing at *any*
position, including points on the airport boundary (where arrivals spawn).
But the bounds clamp runs regardless of `dt`: an `APPROACHING` aircraft at
`(0, 300)` is moved to `(20, 300)` by `update(0)`. -/
theorem C7_counterexample :
    (( (mkAircraft "e1" .APPROACHING 11 ⟨0, 300⟩).update defaultCfg 0 0)).position
        = (⟨20, 300⟩ : Position) ∧
    (mkAircraft "e1" .APPROACHING 11 ⟨0, 300⟩).position = (⟨0, 300⟩ : Position) ∧
    (0 : ℚ) * 0 =
      (mkAircraft "e1" .APPROACHING 11 ⟨0, 300⟩).position.distSq
        (mkAircraft "e1" .APPROACHING 11 ⟨0, 300⟩).target_position := by
  refine ⟨?_, by rfl, by norm_num [mkAircraft, Position.distSq]⟩
  unfold Aircraft.update
  rw [movedPosition_dt_zero _ 0 le_rfl]
  norm_num [mkAircraft, defaultCfg, clampQ, Aircraft.consumeFuel]
  decide

/-- C7 (amended): `update(0)` leaves fuel, position and state unchanged for
every aircraft whose position lies inside the 20-pixel clamp box (or that is
`TAKING_OFF` and therefore exempt from clamping); positions on or outside
the boundary are pulled inside the box by the clamp even at `dt = 0`. -/
theorem C7_amended (cfg : AirportCfg) (a : Aircraft) (d : ℚ) (hd : 0 ≤ d)
    (hfuel : 0 ≤ a.fuel)
    (hpos : (20 ≤ a.position.x ∧ a.position.x ≤ cfg.width - 20 ∧
             20 ≤ a.position.y ∧ a.position.y ≤ cfg.height - 20) ∨
            a.state = .TAKING_OFF) :
    a.update cfg 0 d = a := by
  unfold Aircraft.update
  rw [movedPosition_dt_zero a d hd]
  have hfix : max 0 a.fuel = a.fuel := max_eq_right hfuel
  have hclamp :
      (if a.state ≠ .TAKING_OFF then
        ({ x := clampQ 20 (cfg.width - 20) a.position.x,
           y := clampQ 20 (cfg.height - 20) a.position.y } : Position)
      else a.position) = a.position := by
    rcases hpos with ⟨h1, h2, h3, h4⟩ | hst
    · split_ifs
      · have hx : clampQ 20 (cfg.width - 20) a.position.x = a.position.x := by
          unfold clampQ
          rw [min_eq_right h2, max_eq_right h1]
        have hy : clampQ 20 (cfg.height - 20) a.position.y = a.position.y := by
          unfold clampQ
          rw [min_eq_right h4, max_eq_right h3]
        rw [hx, hy]
      · rfl
    · rw [if_neg (by simp [hst])]
  simp only [hclamp]
  split
  · rfl
  · unfold Aircraft.consumeFuel
    simp only [mul_zero, sub_zero, hfix]

/-- Witness for C7 (amended): an aircraft well inside the bounds is fixed by
`update(0)`. -/
theorem C7_amended_witness :
    (mkAircraft "w3" .APPROACHING 40 ⟨600, 400⟩).update defaultCfg 0 0 =
      mkAircraft "w3" .APPROACHING 40 ⟨600, 400⟩ :=
  C7_amended defaultCfg _ 0 (by norm_num) (by norm_num [mkAircraft])
    (Or.inl (by norm_num [mkAircraft, defaultCfg]))

/-! ## Claim C2: the crash tier -/

theorem distSq_comm (p q : Position) : p.distSq q = q.distSq p := by
  unfold Position.distSq
  ring

theorem mem_allPairs_of_ne {α : Type} {l : List α} {a b : α}
    (ha : a ∈ l) (hb : b ∈ l) (hne : a ≠ b) :
    (a, b) ∈ allPairs l ∨ (b, a) ∈ allPairs l := by
  induction l with
  | nil => cases ha
  | cons x xs ih =>
      rcases List.mem_cons.mp ha with rfl | hat
      · left
        have hbx : b ∈ xs := by
          rcases List.mem_cons.mp hb with rfl | h
          · exact absurd rfl hne
          · exact h
        exact List.mem_append_left _ (List.mem_map_of_mem _ hbx)
      · rcases List.mem_cons.mp hb with rfl | hbt
        · right
          exact List.mem_append_left _ (List.mem_map_of_mem _ hat)
        · rcases ih hat hbt with h | h
          · exact Or.inl (List.mem_append_right _ h)
          · exact Or.inr (List.mem_append_right _ h)

/-- Every aircraft entry carrying id `i` is crashed with the mid-air
collision reason. -/
def CrashPinned (ap : Airport) (i : String) : Prop :=
  ∀ x ∈ ap.aircraft, x.id = i →
    x.state = .CRASHED ∧ x.crash_reason = some "MID-AIR COLLISION"

/-- The crash update of `handle_collisions`. -/
def crashF (a : Aircraft) : Aircraft :=
  { a with state := .CRASHED, crash_reason := some "MID-AIR COLLISION" }

theorem crashPinned_establish (ap : Airport) (i : String) :
    CrashPinned (ap.updAircraft i crashF) i := by
  intro x hx hid
  simp only [Airport.updAircraft, List.mem_map] at hx
  obtain ⟨y, _, rfl⟩ := hx
  by_cases hyj : y.id = i
  · rw [if_pos hyj]
    exact ⟨rfl, rfl⟩
  · rw [if_neg hyj] at hid ⊢
    exact absurd hid hyj

theorem crashPinned_preserve {ap : Airport} {i : String} (j : String)
    (h : CrashPinned ap i) : CrashPinned (ap.updAircraft j crashF) i := by
  intro x hx hid
  simp only [Airport.updAircraft, List.mem_map] at hx
  obtain ⟨y, hy, rfl⟩ := hx
  by_cases hyj : y.id = j
  · rw [if_pos hyj]
    exact ⟨rfl, rfl⟩
  · rw [if_neg hyj] at hid ⊢
    exact h y hy hid

theorem crashPinned_handleCollisions {i : String}
    (cols : List (Aircraft × Aircraft)) (ap : Airport)
    (h : CrashPinned ap i) :
    CrashPinned (CollisionSystem.handleCollisions cols ap) i := by
  induction cols generalizing ap with
  | nil => exact h
  | cons c rest ih =>
      exact ih _ (crashPinned_preserve _ (crashPinned_preserve _ h))

theorem crashPinned_handleCollisions_of_mem {i : String}
    {cols : List (Aircraft × Aircraft)} {ap : Airport}
    (h : ∃ p ∈ cols, p.1.id = i ∨ p.2.id = i) :
    CrashPinned (CollisionSystem.handleCollisions cols ap) i := by
  induction cols generalizing ap with
  | nil => obtain ⟨p, hp, _⟩ := h; cases hp
  | cons c rest ih =>
      obtain ⟨p, hp, hpi⟩ := h
      rcases List.mem_cons.mp hp with rfl | hprest
      · rcases hpi with h1 | h2
        · refine crashPinned_handleCollisions rest _ ?_
          exact crashPinned_preserve _ (h1 ▸ crashPinned_establish ap p.1.id)
        · refine crashPinned_handleCollisions rest _ ?_
          exact h2 ▸ crashPinned_establish _ p.2.id
      · exact ih ⟨p, hprest, hpi⟩

theorem mobile_not_terminal {s : AircraftState}
    (h : s ∈ Aircraft.mobileStates) :
    s ≠ .CRASHED ∧ s ≠ .DEPARTED ∧ s ≠ .AT_GATE ∧
      s ≠ .BOARDING_DEBOARDING := by
  fin_cases h <;> exact ⟨by decide, by decide, by decide, by decide⟩

theorem checkCollision_of_mobile {a b : Aircraft}
    (hma : a.state ∈ Aircraft.mobileStates)
    (hmb : b.state ∈ Aircraft.mobileStates)
    (hd : a.position.distSq b.position ≤ 10 * 10) :
    a.checkCollision b := by
  obtain ⟨ha1, ha2, ha3, ha4⟩ := mobile_not_terminal hma
  obtain ⟨hb1, hb2, hb3, hb4⟩ := mobile_not_terminal hmb
  exact ⟨by tauto, by tauto, by tauto, fun _ => ⟨hma, hmb⟩, hd⟩

theorem mem_activeAircraft {ap : Airport} {a : Aircraft}
    (ha : a ∈ ap.aircraft) (h1 : a.state ≠ .CRASHED)
    (h2 : a.state ≠ .DEPARTED) : a ∈ CollisionSystem.activeAircraft ap := by
  unfold CollisionSystem.activeAircraft
  rw [List.mem_filter]
  exact ⟨ha, by simp [h1, h2]⟩

/-- C2 (amended): if two aircraft are both in *mobile* states (not at a
gate, not terminal) and within 10 pixels, then after `check_collisions`
followed by `handle_collisions` both are `CRASHED` with crash reason
`"MID-AIR COLLISION"`.  (The claim's weaker "not both in gate states"
hypothesis is refuted by `C2_counterexample`.) -/
theorem C2_amended (ap : Airport) (a b : Aircraft) (ha : a ∈ ap.aircraft)
    (hb : b ∈ ap.aircraft) (hne : a.id ≠ b.id)
    (hma : a.state ∈ Aircraft.mobileStates)
    (hmb : b.state ∈ Aircraft.mobileStates)
    (hd : a.position.distSq b.position ≤ 10 * 10) :
    ∀ x ∈ (CollisionSystem.collisionsPass ap).aircraft,
      (x.id = a.id ∨ x.id = b.id) →
      x.state = .CRASHED ∧ x.crash_reason = some "MID-AIR COLLISION" := by
  obtain ⟨ha1, ha2, _, _⟩ := mobile_not_terminal hma
  obtain ⟨hb1, hb2, _, _⟩ := mobile_not_terminal hmb
  have haA := mem_activeAircraft ha ha1 ha2
  have hbA := mem_activeAircraft hb hb1 hb2
  have hab : a ≠ b := fun h => hne (h ▸ rfl)
  have hcol1 : a.checkCollision b := checkCollision_of_mobile hma hmb hd
  have hcol2 : b.checkCollision a :=
    checkCollision_of_mobile hmb hma (distSq_comm a.position b.position ▸ hd)
  have hmem : ∃ p ∈ CollisionSystem.checkCollisions ap,
      (p.1.id = a.id ∨ p.2.id = a.id) ∧ (p.1.id = b.id ∨ p.2.id = b.id) := by
    rcases mem_allPairs_of_ne haA hbA hab with h | h
    · refine ⟨(a, b), ?_, Or.inl rfl, Or.inr rfl⟩
      unfold CollisionSystem.checkCollisions
      rw [List.mem_filter]
      exact ⟨h, by simpa using hcol1⟩
    · refine ⟨(b, a), ?_, Or.inr rfl, Or.inl rfl⟩
      unfold CollisionSystem.checkCollisions
      rw [List.mem_filter]
      exact ⟨h, by simpa using hcol2⟩
  obtain ⟨p, hp, hpa, hpb⟩ := hmem
  have hca : CrashPinned (CollisionSystem.collisionsPass ap) a.id :=
    crashPinned_handleCollisions_of_mem ⟨p, hp, hpa⟩
  have hcb : CrashPinned (CollisionSystem.collisionsPass ap) b.id :=
    crashPinned_handleCollisions_of_mem ⟨p, hp, hpb⟩
  intro x hx hid
  rcases hid with h | h
  · exact hca x hx h
  · exact hcb x hx h

/-- Two mobile aircraft 5 pixels apart. -/
def apC2w : Airport :=
  { runways := [],
    aircraft := [mkAircraft "c1" .APPROACHING 50 ⟨100, 100⟩,
                 mkAircraft "c2" .APPROACHING 50 ⟨105, 100⟩] }

theorem updAircraft_map_id (ap : Airport) (j : String)
    (f : Aircraft → Aircraft) (hfid : ∀ y, (f y).id = y.id) :
    (ap.updAircraft j f).aircraft.map Aircraft.id =
      ap.aircraft.map Aircraft.id := by
  simp only [Airport.updAircraft, List.map_map]
  refine List.map_congr_left ?_
  intro a _
  dsimp only [Function.comp]
  split
  · exact hfid a
  · rfl

theorem foldl_map_id_inv {α : Type} (step : Airport → α → Airport)
    (hstep : ∀ acc x, (step acc x).aircraft.map Aircraft.id =
      acc.aircraft.map Aircraft.id) :
    ∀ (l : List α) (ap : Airport),
      (l.foldl step ap).aircraft.map Aircraft.id =
        ap.aircraft.map Aircraft.id
  | [], _ => rfl
  | x :: xs, ap =>
      (foldl_map_id_inv step hstep xs (step ap x)).trans (hstep ap x)

theorem collisionsPass_map_id (ap : Airport) :
    (CollisionSystem.collisionsPass ap).aircraft.map Aircraft.id =
      ap.aircraft.map Aircraft.id := by
  unfold CollisionSystem.collisionsPass CollisionSystem.handleCollisions
  refine foldl_map_id_inv _ ?_ _ ap
  intro acc p
  rw [updAircraft_map_id, updAircraft_map_id] <;> intro y <;> rfl

/-- Witness for C2 (amended): two `APPROACHING` aircraft 5 pixels apart both
end the crash tier `CRASHED` with reason `"MID-AIR COLLISION"`. -/
theorem C2_amended_witness :
    ((CollisionSystem.collisionsPass apC2w).getAircraft "c1").map
        Aircraft.state = some AircraftState.CRASHED ∧
    ((CollisionSystem.collisionsPass apC2w).getAircraft "c1").map
        Aircraft.crash_reason = some (some "MID-AIR COLLISION") ∧
    ((CollisionSystem.collisionsPass apC2w).getAircraft "c2").map
        Aircraft.state = some AircraftState.CRASHED ∧
    ((CollisionSystem.collisionsPass apC2w).getAircraft "c2").map
        Aircraft.crash_reason = some (some "MID-AIR COLLISION") := by
  have h := C2_amended apC2w (mkAircraft "c1" .APPROACHING 50 ⟨100, 100⟩)
    (mkAircraft "c2" .APPROACHING 50 ⟨105, 100⟩)
    (List.mem_cons_self _ _)
    (List.mem_cons_of_mem _ (List.mem_cons_self _ _))
    (by decide) (by decide) (by decide)
    (by norm_num [mkAircraft, Position.distSq])
  have hids : (CollisionSystem.collisionsPass apC2w).aircraft.map
      Aircraft.id = ["c1", "c2"] := by
    rw [collisionsPass_map_id]
    rfl
  have hm1 : "c1" ∈ (CollisionSystem.collisionsPass apC2w).aircraft.map
      Aircraft.id := by
    rw [hids]
    exact List.mem_cons_self _ _
  have hm2 : "c2" ∈ (CollisionSystem.collisionsPass apC2w).aircraft.map
      Aircraft.id := by
    rw [hids]
    exact List.mem_cons_of_mem _ (List.mem_cons_self _ _)
  obtain ⟨x1, hx1, hxid1⟩ := List.mem_map.mp hm1
  obtain ⟨x2, hx2, hxid2⟩ := List.mem_map.mp hm2
  rcases hf1 : (CollisionSystem.collisionsPass apC2w).getAircraft "c1"
    with _ | y1
  · exact absurd (List.find?_eq_none.mp hf1 x1 hx1) (by simp [hxid1])
  · rcases hf2 : (CollisionSystem.collisionsPass apC2w).getAircraft "c2"
      with _ | y2
    · exact absurd (List.find?_eq_none.mp hf2 x2 hx2) (by simp [hxid2])
    · have hy1 := h y1 (getAircraft_mem hf1) (Or.inl (getAircraft_id hf1))
      have hy2 := h y2 (getAircraft_mem hf2) (Or.inr (getAircraft_id hf2))
      exact ⟨by simp [hy1.1], by simp [hy1.2], by simp [hy2.1],
        by simp [hy2.2]⟩

/-- One aircraft at a gate, one approaching, 5 pixels apart. -/
def apC2x : Airport :=
  { runways := [],
    aircraft := [mkAircraft "g1" .AT_GATE 50 ⟨100, 100⟩,
                 mkAircraft "a2" .APPROACHING 50 ⟨105, 100⟩] }

/-- C2 counterexample: the claim exempts only pairs in which *both*
aircraft are in gate states, but `check_collision`'s mobility guard rejects
every pair in which *either* aircraft is at a gate: an `AT_GATE` aircraft
and an `APPROACHING` aircraft 5 pixels apart (neither terminal, not both in
gate states) survive the crash tier completely unchanged instead of both
being CRASHED. -/
theorem C2_counterexample :
    (mkAircraft "g1" .AT_GATE 50 ⟨100, 100⟩).state ≠ .CRASHED ∧
    (mkAircraft "g1" .AT_GATE 50 ⟨100, 100⟩).state ≠ .DEPARTED ∧
    (mkAircraft "a2" .APPROACHING 50 ⟨105, 100⟩).state ≠ .CRASHED ∧
    (mkAircraft "a2" .APPROACHING 50 ⟨105, 100⟩).state ≠ .DEPARTED ∧
    ¬ ((mkAircraft "g1" .AT_GATE 50 ⟨100, 100⟩).state ∈
          ([.AT_GATE, .BOARDING_DEBOARDING] : List AircraftState) ∧
        (mkAircraft "a2" .APPROACHING 50 ⟨105, 100⟩).state ∈
          ([.AT_GATE, .BOARDING_DEBOARDING] : List AircraftState)) ∧
    (mkAircraft "g1" .AT_GATE 50 ⟨100, 100⟩).position.distSq
        (mkAircraft "a2" .APPROACHING 50 ⟨105, 100⟩).position ≤ 10 * 10 ∧
    CollisionSystem.collisionsPass apC2x = apC2x := by
  have hnc : ∀ p ∈ allPairs (CollisionSystem.activeAircraft apC2x),
      ¬ (decide (p.1.checkCollision p.2) = true) := by
    intro p hp
    have hact : CollisionSystem.activeAircraft apC2x = apC2x.aircraft := by
      decide
    rw [hact] at hp
    simp only [apC2x, allPairs, List.map, List.append_nil,
      List.mem_singleton] at hp
    subst hp
    simp only [decide_eq_true_eq]
    intro h
    exact absurd (h.2.2.2.1 (Or.inl (Or.inl rfl))).1 (by decide)
  have hcheck : CollisionSystem.checkCollisions apC2x = [] := by
    unfold CollisionSystem.checkCollisions
    rw [List.filter_eq_nil_iff]
    exact hnc
  refine ⟨by decide, by decide, by decide, by decide, by decide,
    by norm_num [mkAircraft, Position.distSq], ?_⟩
  unfold CollisionSystem.collisionsPass
  rw [hcheck]
  rfl

/-! ## Claims C5 and C6: command processing -/

theorem updAircraft_pinned_state {ap : Airport} {i : String}
    {f : Aircraft → Aircraft} {s : AircraftState}
    (hfs : ∀ y, (f y).state = s) :
    ∀ x ∈ (ap.updAircraft i f).aircraft, x.id = i → x.state = s := by
  intro x hx hid
  simp only [Airport.updAircraft, List.mem_map] at hx
  obtain ⟨y, hy, rfl⟩ := hx
  by_cases hyj : y.id = i
  · rw [if_pos hyj]
    exact hfs y
  · rw [if_neg hyj] at hid ⊢
    exact absurd hid hyj

theorem pyIdx_zero_of_ne_nil {α : Type} {l : List α} (h : l ≠ []) :
    ∃ x, pyIdx l 0 = some x := by
  cases l with
  | nil => exact absurd rfl h
  | cons x t => exact ⟨x, by simp [pyIdx]⟩

/-- C6 (amended): a command whose target string contains no digit is dropped
with a warning: the airport is unchanged and no exception escapes (the
string-conversion `ValueError` is the only error the `try`/`except`
catches).  Out-of-range integer targets instead raise an uncaught
`IndexError` (`C6_counterexample`). -/
theorem C6_amended (ringDirs : ℕ → Position) (holdDir occDir : Position)
    (ap : Airport) (aid action : String) (s : String)
    (hs : extractFirstNat s = none) :
    SimulationEngine.processAtcDecision ringDirs holdDir occDir ap aid action
      (.tstr s) = (ap, none) := by
  unfold SimulationEngine.processAtcDecision
  cases h : ap.getAircraft aid
  · rfl
  · simp [parseTarget, hs]

/-- Witness for C6 (amended): the decision target `"runway A"` has no digit
and the command is dropped without touching the airport. -/
theorem C6_amended_witness :
    SimulationEngine.processAtcDecision (fun _ => ⟨1, 0⟩) ⟨1, 0⟩ ⟨1, 0⟩
      { runways := [],
        aircraft := [mkAircraft "p1" .APPROACHING 50 ⟨100, 100⟩] }
      "p1" "assign_landing" (.tstr "runway A") =
      ({ runways := [],
         aircraft := [mkAircraft "p1" .APPROACHING 50 ⟨100, 100⟩] }, none) :=
  C6_amended _ _ _ _ _ _ _ (by rfl)

/-- A two-runway airport with one approaching aircraft (runway geometry as
initialised by `Airport._initialize_runways` for the default config). -/
def apC6 : Airport :=
  { runways :=
      [{ id := 0, start_position := ⟨50, 266⟩, end_position := ⟨350, 266⟩ },
       { id := 1, start_position := ⟨50, 533⟩, end_position := ⟨350, 533⟩ }],
    aircraft := [mkAircraft "p1" .APPROACHING 50 ⟨100, 100⟩] }

/-- C6 counterexample: an `assign_landing` command with the out-of-range
runway id 5 (only runways 0 and 1 exist) makes
`self.airport.runways[target]` raise an uncaught `IndexError` instead of
being dropped with a warning — contradicting both "the command is dropped
with a warning" and "nothing in the core is fatal to the process".  (The
airport state is untouched because the indexing error precedes every
mutation.) -/
theorem C6_counterexample :
    (SimulationEngine.processAtcDecision (fun _ => ⟨1, 0⟩) ⟨1, 0⟩ ⟨1, 0⟩
        apC6 "p1" "assign_landing" (.tint 5)).2 =
      some "IndexError: list index out of range" ∧
    (SimulationEngine.processAtcDecision (fun _ => ⟨1, 0⟩) ⟨1, 0⟩ ⟨1, 0⟩
        apC6 "p1" "assign_landing" (.tint 5)).1 = apC6 := by
  constructor <;> rfl

/-- C5: processing a `hold_pattern` command for an aircraft that cannot
safely hold ten minutes never places it into `HOLDING` — it is assigned a
runway and set to `LANDING` — but the command processing then *always*
raises `NameError`, because `engine.py` line 201 references `RunwayState`
without importing it (the sibling modules import it correctly, and the
success log line 203 right below is unreachable).  So the safety-law half
of the claim holds and the no-exception half is a code bug. -/
theorem C5_forced_landing (ringDirs : ℕ → Position) (holdDir occDir : Position)
    (ap : Airport) (aid : String) (a : Aircraft)
    (ha : ap.getAircraft aid = some a) (hcant : ¬ a.canSafelyHold 10)
    (hrw : ap.runways ≠ []) :
    (∀ x ∈ (SimulationEngine.processAtcDecision ringDirs holdDir occDir ap
        aid "hold_pattern" .tnone).1.aircraft,
      x.id = aid → x.state = .LANDING) ∧
    (SimulationEngine.processAtcDecision ringDirs holdDir occDir ap aid
        "hold_pattern" .tnone).2 =
      some "NameError: name RunwayState is not defined" := by
  have key : SimulationEngine.processAtcDecision ringDirs holdDir occDir ap
      aid "hold_pattern" .tnone =
      (match ap.getAvailableRunway with
      | some rw => SimulationEngine.forcedLanding aid rw ap
      | none =>
          match pyIdx ap.runways 0 with
          | none => (ap, some "IndexError: list index out of range")
          | some rw =>
              let ap1 :=
                match rw.occupied_by with
                | some occId =>
                    match ap.getAircraft occId with
                    | some occ =>
                        if ¬ occ.isCriticalFuel ∧ occ.canSafelyHold 5 then
                          ap.updAircraft occId fun x =>
                            { x with
                              target_position :=
                                ⟨ap.cfg.width / 2 + occDir.x * 200,
                                 ap.cfg.height / 2 + occDir.y * 200⟩
                              state := .HOLDING
                              assigned_runway := none }
                        else ap
                    | none => ap
                | none => ap
              SimulationEngine.forcedLanding aid rw ap1) := by
    unfold SimulationEngine.processAtcDecision
    rw [ha]
    simp [parseTarget, hcant]
  rw [key]
  cases hav : ap.getAvailableRunway with
  | some rw =>
      exact ⟨updAircraft_pinned_state fun y => rfl, rfl⟩
  | none =>
      obtain ⟨rw0, h0⟩ := pyIdx_zero_of_ne_nil hrw
      rw [h0]
      exact ⟨updAircraft_pinned_state fun y => rfl, rfl⟩

/-- Witness for C5: an `APPROACHING` aircraft with 12 % fuel (which can
never hold for ten minutes: 130 % would be needed) is set `LANDING`, and the
`NameError` escapes. -/
theorem C5_forced_landing_witness :
    (∀ x ∈ (SimulationEngine.processAtcDecision (fun _ => ⟨1, 0⟩) ⟨1, 0⟩
        ⟨1, 0⟩ apC6 "p1" "hold_pattern" .tnone).1.aircraft,
      x.id = "p1" → x.state = .LANDING) ∧
    (SimulationEngine.processAtcDecision (fun _ => ⟨1, 0⟩) ⟨1, 0⟩ ⟨1, 0⟩
        apC6 "p1" "hold_pattern" .tnone).2 =
      some "NameError: name RunwayState is not defined" :=
  C5_forced_landing _ _ _ apC6 "p1"
    (mkAircraft "p1" .APPROACHING 50 ⟨100, 100⟩) (by rfl)
    (by norm_num [Aircraft.canSafelyHold, mkAircraft]) (by simp [apC6])

/-! ## Claim C8: the emergency separation tier -/

theorem map_position_updAircraft (ap : Airport) (i : String)
    (f : Aircraft → Aircraft) (hf : ∀ y, (f y).position = y.position) :
    (ap.updAircraft i f).aircraft.map Aircraft.position =
      ap.aircraft.map Aircraft.position := by
  simp only [Airport.updAircraft, List.map_map]
  have hcomp : (Aircraft.position ∘ fun a => if a.id = i then f a else a) =
      Aircraft.position := by
    funext y
    by_cases h : y.id = i <;> simp [h, hf]
  rw [hcomp]

theorem updAircraft_pinned_state_preserve {ap : Airport} {i : String}
    {f : Aircraft → Aircraft} {s : AircraftState} (j : String)
    (hfs : ∀ y, (f y).state = s)
    (h : ∀ x ∈ ap.aircraft, x.id = i → x.state = s) :
    ∀ x ∈ (ap.updAircraft j f).aircraft, x.id = i → x.state = s := by
  intro x hx hid
  simp only [Airport.updAircraft, List.mem_map] at hx
  obtain ⟨y, hy, rfl⟩ := hx
  by_cases hyj : y.id = j
  · rw [if_pos hyj]
    exact hfs y
  · rw [if_neg hyj] at hid ⊢
    exact h y hy hid

/-- C8 (amended): one emergency-tier pass
(`execute_emergency_avoidance`) sets both aircraft of the pair to `HOLDING`
and rewrites their *target* positions, but it changes no aircraft's actual
position — so at the end of the pass the pair's separation is whatever it
was before (50 pixels in the scenario), not ≥ 120; the 120-pixel check only
constrains the chosen target positions. -/
theorem C8_amended (a1 a2 : Aircraft) (d : ℚ) (ap : Airport) :
    ((CollisionSystem.executeEmergencyAvoidance a1 a2 d ap).aircraft.map
        Aircraft.position = ap.aircraft.map Aircraft.position) ∧
    (a1.position.distSq a2.position > 0 →
      ∀ x ∈ (CollisionSystem.executeEmergencyAvoidance a1 a2 d ap).aircraft,
        (x.id = a1.id ∨ x.id = a2.id) → x.state = .HOLDING) := by
  unfold CollisionSystem.executeEmergencyAvoidance
  split
  · dsimp only
    constructor
    · rw [map_position_updAircraft]
      · rw [map_position_updAircraft]
        intro y
        rfl
      · intro y
        rfl
    · intro _ x hx hid
      rcases hid with h | h
      · refine updAircraft_pinned_state_preserve a2.id ?_ ?_ x hx h
        · exact fun y => rfl
        · refine updAircraft_pinned_state ?_
          exact fun y => rfl
      · refine updAircraft_pinned_state ?_ x hx h
        exact fun y => rfl
  · next hneg =>
      exact ⟨rfl, fun hd => absurd hd hneg⟩

/-- First aircraft of the C8 scenario (50 pixels from the second). -/
def p1C8 : Aircraft := mkAircraft "p1" .APPROACHING 50 ⟨400, 300⟩

/-- Second aircraft of the C8 scenario. -/
def p2C8 : Aircraft := mkAircraft "p2" .APPROACHING 50 ⟨450, 300⟩

/-- The C8 scenario airport: two mobile aircraft 50 pixels apart. -/
def apC8 : Airport := { runways := [], aircraft := [p1C8, p2C8] }

/-- The C8 scenario airport after the emergency tier: both aircraft
`HOLDING` with targets pushed 250 pixels apart, positions untouched. -/
def apC8x : Airport :=
  { runways := [],
    aircraft :=
      [{ p1C8 with target_position := ⟨150, 300⟩, state := .HOLDING },
       { p2C8 with target_position := ⟨700, 300⟩, state := .HOLDING }] }

/-- Witness for C8 (amended) at the 50-pixel scenario. -/
theorem C8_amended_witness :
    ((CollisionSystem.executeEmergencyAvoidance p1C8 p2C8 50 apC8).aircraft.map
        Aircraft.position = apC8.aircraft.map Aircraft.position) ∧
    (∀ x ∈ (CollisionSystem.executeEmergencyAvoidance p1C8 p2C8 50
        apC8).aircraft,
      (x.id = p1C8.id ∨ x.id = p2C8.id) → x.state = .HOLDING) :=
  ⟨(C8_amended p1C8 p2C8 50 apC8).1,
   (C8_amended p1C8 p2C8 50 apC8).2
     (by norm_num [p1C8, p2C8, mkAircraft, Position.distSq])⟩

/-- C8 counterexample: running the emergency tier
(`check_imminent_collisions` on two mobile aircraft 50 pixels apart, no
cool-down active, pair distance `50² = 2500 ≤ 100²`) sets both aircraft to
`HOLDING` but leaves their *positions* exactly where they were — 50 < 120
pixels apart — contradicting "leaves them with positions ≥ 120 units
apart".  (Only their target positions are separated; `dOf = 50` is the true
distance, as the fourth conjunct records.) -/
theorem C8_counterexample :
    (CollisionSystem.checkImminentCollisions (fun _ _ => 50)
        (fun _ => ⟨1, 0⟩) {} apC8).2.1.aircraft.map Aircraft.position =
      [⟨400, 300⟩, ⟨450, 300⟩] ∧
    (CollisionSystem.checkImminentCollisions (fun _ _ => 50)
        (fun _ => ⟨1, 0⟩) {} apC8).2.1.aircraft.map Aircraft.state =
      [.HOLDING, .HOLDING] ∧
    ¬ ((⟨400, 300⟩ : Position).distSq ⟨450, 300⟩ ≥ 120 * 120) ∧
    (50 : ℚ) * 50 = p1C8.position.distSq p2C8.position ∧
    p1C8.position.distSq p2C8.position ≤ 100 * 100 ∧
    p1C8.position.distSq p2C8.position > 0 := by
  have hact : CollisionSystem.activeAircraft apC8 = [p1C8, p2C8] := by
    simp [CollisionSystem.activeAircraft, apC8, p1C8, p2C8, mkAircraft]
  have hsafe1 : CollisionSystem.isPositionSafe ⟨150, 300⟩ [p1C8, p2C8]
      p1C8 120 := by
    intro other hmem hne _
    rcases List.mem_cons.mp hmem with rfl | hmem2
    · exact absurd rfl hne
    · rcases List.mem_singleton.mp hmem2 with rfl
      constructor <;> norm_num [p1C8, p2C8, mkAircraft, Position.distSq]
  have hsafe2 : CollisionSystem.isPositionSafe ⟨700, 300⟩ [p1C8, p2C8]
      p2C8 120 := by
    intro other hmem hne _
    rcases List.mem_cons.mp hmem with rfl | hmem2
    · constructor <;> norm_num [p1C8, p2C8, mkAircraft, Position.distSq]
    · rcases List.mem_singleton.mp hmem2 with rfl
      exact absurd rfl hne
  have hexec : CollisionSystem.executeEmergencyAvoidance p1C8 p2C8 50 apC8 =
      apC8x := by
    unfold CollisionSystem.executeEmergencyAvoidance
    rw [if_pos (show p1C8.position.distSq p2C8.position > 0 by
      norm_num [p1C8, p2C8, mkAircraft, Position.distSq])]
    dsimp only
    rw [hact]
    have e1 : clampQ 50 (apC8.cfg.width - 50)
        (p1C8.position.x + (p1C8.position.x - p2C8.position.x) / 50 * 250) =
        150 := by
      norm_num [clampQ, apC8, p1C8, p2C8, mkAircraft, defaultCfg]
    have e2 : clampQ 50 (apC8.cfg.height - 50)
        (p1C8.position.y + (p1C8.position.y - p2C8.position.y) / 50 * 250) =
        300 := by
      norm_num [clampQ, apC8, p1C8, p2C8, mkAircraft, defaultCfg]
    have e3 : clampQ 50 (apC8.cfg.width - 50)
        (p2C8.position.x - (p1C8.position.x - p2C8.position.x) / 50 * 250) =
        700 := by
      norm_num [clampQ, apC8, p1C8, p2C8, mkAircraft, defaultCfg]
    have e4 : clampQ 50 (apC8.cfg.height - 50)
        (p2C8.position.y - (p1C8.position.y - p2C8.position.y) / 50 * 250) =
        300 := by
      norm_num [clampQ, apC8, p1C8, p2C8, mkAircraft, defaultCfg]
    rw [e1, e2, e3, e4, if_pos (decide_eq_true hsafe1),
      if_pos (decide_eq_true hsafe2)]
    simp [Airport.updAircraft, apC8, apC8x, p1C8, p2C8, mkAircraft]
  have hstep : CollisionSystem.imminentStep (fun _ _ => 50)
      (fun _ => ⟨1, 0⟩) ["p1", "p2"] ({}, apC8, []) ("p1", "p2") =
      ({ emergActive := [("p1", 0), ("p2", 0)] }, apC8x, []) := by
    unfold CollisionSystem.imminentStep
    have hg1 : apC8.getAircraft "p1" = some p1C8 := by rfl
    have hg2 : apC8.getAircraft "p2" = some p2C8 := by rfl
    dsimp only
    rw [hg1, hg2]
    dsimp only
    rw [if_pos (show p1C8.position.distSq p2C8.position ≤ 100 * 100 by
      norm_num [p1C8, p2C8, mkAircraft, Position.distSq])]
    rw [if_pos (by rfl)]
    rw [hexec]
    rfl
  have hmain : (CollisionSystem.checkImminentCollisions (fun _ _ => 50)
      (fun _ => ⟨1, 0⟩) {} apC8).2.1 = apC8x := by
    unfold CollisionSystem.checkImminentCollisions
    rw [hact]
    dsimp only [List.map, allPairs, List.foldl]
    rw [show p1C8.id = "p1" from rfl, show p2C8.id = "p2" from rfl]
    rw [hstep]
  rw [hmain]
  refine ⟨by rfl, by rfl, by norm_num [Position.distSq], ?_, ?_, ?_⟩ <;>
    norm_num [p1C8, p2C8, mkAircraft, Position.distSq]

/-! ## Claim C3: critical-fuel emergency handling -/

/-- Runway lookup by id (statement helper; the source indexes
`airport.runways` positionally, with ids equal to indexes). -/
def Airport.getRunway (ap : Airport) (i : ℤ) : Option Runway :=
  ap.runways.find? fun r => r.id = i

theorem getRunway_updAircraft (ap : Airport) (j : String)
    (f : Aircraft → Aircraft) (i : ℤ) :
    (ap.updAircraft j f).getRunway i = ap.getRunway i := rfl

theorem getRunway_updRunway (ap : Airport) (j : ℤ) (f : Runway → Runway)
    (hfid : ∀ y, (f y).id = y.id) (i : ℤ) :
    (ap.updRunway j f).getRunway i =
      (ap.getRunway i).map fun r => if r.id = j then f r else r := by
  unfold Airport.getRunway Airport.updRunway
  simp only
  rw [List.find?_map]
  have hpred : ((fun r => decide (r.id = i)) ∘
      fun r => if r.id = j then f r else r) =
      (fun r : Runway => decide (r.id = i)) := by
    funext y
    by_cases h : y.id = j <;> simp [Function.comp, h, hfid y]
  rw [hpred]

theorem find?_runway_of_mem_nodup {l : List Runway} {r : Runway}
    (hn : (l.map Runway.id).Nodup) (hr : r ∈ l) :
    l.find? (fun x => x.id = r.id) = some r := by
  induction l with
  | nil => cases hr
  | cons b t ih =>
      rw [List.map_cons, List.nodup_cons] at hn
      rcases List.mem_cons.mp hr with rfl | hrt
      · simp [List.find?_cons]
      · have hb : b.id ≠ r.id := by
          intro hEq
          exact hn.1 (hEq ▸ List.mem_map_of_mem Runway.id hrt)
        rw [List.find?_cons]
        simp only [hb, decide_eq_true_eq, if_neg]
        · exact ih hn.2 hrt

theorem getRunway_of_mem_nodup {ap : Airport} {r : Runway}
    (hn : (ap.runways.map Runway.id).Nodup) (hr : r ∈ ap.runways) :
    ap.getRunway r.id = some r :=
  find?_runway_of_mem_nodup hn hr

theorem getAircraft_updAircraft (ap : Airport) (j : String)
    (f : Aircraft → Aircraft) (hfid : ∀ y, (f y).id = y.id) (i : String) :
    (ap.updAircraft j f).getAircraft i =
      (ap.getAircraft i).map fun x => if x.id = j then f x else x :=
  getAircraft_map_of_id ap _
    (fun y => by by_cases h : y.id = j <;> simp [h, hfid y]) i

/-- Every aircraft entry carrying id `i` still has fuel `fv` and is not in
`GO_AROUND` (tracks that a critical-fuel aircraft is never preempted by the
emergency loop). -/
def CritPinned (ap : Airport) (i : String) (fv : ℚ) : Prop :=
  ∀ y ∈ ap.aircraft, y.id = i → (y.fuel = fv ∧ y.state ≠ .GO_AROUND)

theorem critPinned_updAircraft {ap : Airport} {i : String} {fv : ℚ}
    (j : String) {f : Aircraft → Aircraft}
    (hf : ∀ y, (f y).id = y.id ∧ (f y).fuel = y.fuel ∧
      (f y).state ≠ AircraftState.GO_AROUND)
    (h : CritPinned ap i fv) : CritPinned (ap.updAircraft j f) i fv := by
  intro y hy hid
  simp only [Airport.updAircraft, List.mem_map] at hy
  obtain ⟨z, hz, rfl⟩ := hy
  by_cases hzj : z.id = j
  · rw [if_pos hzj] at hid ⊢
    have hzid : z.id = i := (hf z).1 ▸ hid
    exact ⟨(hf z).2.1.trans (h z hz hzid).1, (hf z).2.2⟩
  · rw [if_neg hzj] at hid ⊢
    exact h z hz hid

theorem critPinned_updAircraft_ne {ap : Airport} {i : String} {fv : ℚ}
    {j : String} {f : Aircraft → Aircraft} (hne : j ≠ i)
    (hfid : ∀ y, (f y).id = y.id) (h : CritPinned ap i fv) :
    CritPinned (ap.updAircraft j f) i fv := by
  intro y hy hid
  simp only [Airport.updAircraft, List.mem_map] at hy
  obtain ⟨z, hz, rfl⟩ := hy
  by_cases hzj : z.id = j
  · rw [if_pos hzj] at hid ⊢
    rw [hfid z] at hid
    exact absurd (hzj.symm.trans hid) hne
  · rw [if_neg hzj] at hid ⊢
    exact h z hz hid

theorem critPinned_updRunway {ap : Airport} {i : String} {fv : ℚ} {j : ℤ}
    {f : Runway → Runway} (h : CritPinned ap i fv) :
    CritPinned (ap.updRunway j f) i fv := h

theorem critPinned_assign {ap : Airport} {i : String} {fv : ℚ}
    (planeId : String) (r : Runway) (h : CritPinned ap i fv) :
    CritPinned (FuelSystem.assignEmergencyLanding planeId r ap) i fv := by
  unfold FuelSystem.assignEmergencyLanding
  exact critPinned_updRunway (critPinned_updAircraft planeId
    (fun y => ⟨rfl, rfl, by intro hc; cases hc⟩) h)

theorem critPinned_goAround {ap : Airport} {i : String} {fv : ℚ}
    (hfv : fv < 15) (gaDir : Position) {r : Runway}
    (hfind : FuelSystem.findRunwayToClear ap = some r)
    (h : CritPinned ap i fv) :
    CritPinned (FuelSystem.executeEmergencyGoAround gaDir r ap) i fv := by
  unfold FuelSystem.executeEmergencyGoAround
  cases hocc : r.occupied_by with
  | none => exact h
  | some occId =>
      dsimp only
      cases hgo : ap.getAircraft occId with
      | none => exact h
      | some occ =>
          dsimp only
          split
          · have hP := List.find?_some hfind
            rw [hocc] at hP
            simp only [hgo, Bool.and_eq_true, decide_eq_true_eq] at hP
            have hocc_nc : ¬ occ.isCriticalFuel := hP.2
            have hne : occId ≠ i := by
              intro hEq
              have hmem := getAircraft_mem hgo
              have hid : occ.id = i := (getAircraft_id hgo).trans hEq
              have hpin := h occ hmem hid
              exact hocc_nc (by
                unfold Aircraft.isCriticalFuel
                rw [hpin.1]
                exact hfv)
            refine critPinned_updAircraft_ne hne ?_ (critPinned_updRunway h)
            exact fun y => rfl
          · exact h

theorem critPinned_emergencyStep {ap : Airport} {i : String} {fv : ℚ}
    (hfv : fv < 15) (gaDir : Position) (plane : Aircraft)
    (h : CritPinned ap i fv) :
    CritPinned (FuelSystem.emergencyStep gaDir plane ap) i fv := by
  unfold FuelSystem.emergencyStep
  cases hav : ap.getAvailableRunway with
  | some r => exact critPinned_assign _ _ h
  | none =>
      cases hfind : FuelSystem.findRunwayToClear ap with
      | none => exact h
      | some r =>
          exact critPinned_assign _ _ (critPinned_goAround hfv gaDir hfind h)

theorem critPinned_foldl {i : String} {fv : ℚ} (hfv : fv < 15)
    (gaDirs : ℕ → Position) :
    ∀ (l : List (ℕ × Aircraft)) (ap : Airport), CritPinned ap i fv →
      CritPinned
        (l.foldl (fun acc p => FuelSystem.emergencyStep (gaDirs p.1) p.2 acc)
          ap) i fv
  | [], _, h => h
  | p :: rest, _, h =>
      critPinned_foldl hfv gaDirs rest _
        (critPinned_emergencyStep hfv (gaDirs p.1) p.2 h)

theorem critPinned_handleCritical {ap : Airport} {i : String} {fv : ℚ}
    (hfv : fv < 15) (gaDirs : ℕ → Position) (h : CritPinned ap i fv) :
    CritPinned (FuelSystem.handleCriticalFuelEmergencies gaDirs ap) i fv := by
  unfold FuelSystem.handleCriticalFuelEmergencies
  exact critPinned_foldl hfv gaDirs _ ap h

theorem handleCritical_singleton {ap : Airport} {a : Aircraft}
    (gaDirs : ℕ → Position) (hcrit : FuelSystem.criticalList ap = [a]) :
    FuelSystem.handleCriticalFuelEmergencies gaDirs ap =
      FuelSystem.emergencyStep (gaDirs 0) a ap := by
  unfold FuelSystem.handleCriticalFuelEmergencies
  rw [hcrit]
  simp [List.insertionSort, List.orderedInsert, List.enum, List.enumFrom,
    List.foldl]

/-- C3 (amended): each tick the critical-fuel emergency loop processes
exactly the critical `APPROACHING`/`HOLDING` aircraft, most-critical first
(ascending fuel, stable sort), running one emergency step per aircraft
against the current mid-loop airport state.  Each step is a *trichotomy*:
a critical aircraft is assigned an available runway immediately (set
`LANDING` on it); with zero runways available, a runway held by a
non-critical lander is cleared — its occupant forced into `GO_AROUND` with
its runway assignment stripped — and the freed runway is assigned to the
critical aircraft; and when neither a free runway nor a non-critical
landing occupant exists, the step leaves the airport (and so the critical
aircraft) unchanged — the case the original two-way claim omits (see
`C3_counterexample`).  No critical-fuel aircraft is ever forced into
`GO_AROUND` by this loop. -/
theorem C3_amended (ap : Airport) (gaDir : Position) (a b : Aircraft)
    (r : Runway) (hn : ap.idsNodup)
    (hrn : (ap.runways.map Runway.id).Nodup)
    (hmema : a ∈ ap.aircraft)
    (hav : ap.getAvailableRunway = none)
    (hfind : FuelSystem.findRunwayToClear ap = some r)
    (hocc : r.occupied_by = some b.id)
    (hgb : ap.getAircraft b.id = some b)
    (hbl : b.state = .LANDING) (hne : a.id ≠ b.id) :
    (∀ ap₁ : Airport,
      List.Sorted FuelSystem.fuelLe
        (List.insertionSort FuelSystem.fuelLe (FuelSystem.criticalList ap₁)) ∧
      (List.insertionSort FuelSystem.fuelLe
        (FuelSystem.criticalList ap₁)).Perm (FuelSystem.criticalList ap₁)) ∧
    (∀ (ap₁ : Airport) (g : ℕ → Position),
      FuelSystem.handleCriticalFuelEmergencies g ap₁ =
        ((List.insertionSort FuelSystem.fuelLe
            (FuelSystem.criticalList ap₁)).enum).foldl
          (fun acc p => FuelSystem.emergencyStep (g p.1) p.2 acc) ap₁) ∧
    (∀ (ap₂ : Airport) (gaDir₂ : Position) (c : Aircraft) (r₂ : Runway),
      ap₂.idsNodup → c ∈ ap₂.aircraft →
      ap₂.getAvailableRunway = some r₂ →
      (FuelSystem.emergencyStep gaDir₂ c ap₂).getAircraft c.id =
        some { c with assigned_runway := some r₂.id,
                      target_position := r₂.centerPosition,
                      state := .LANDING }) ∧
    ((FuelSystem.emergencyStep gaDir a ap).getAircraft a.id =
      some { a with assigned_runway := some r.id,
                    target_position := r.centerPosition,
                    state := .LANDING }) ∧
    ((FuelSystem.emergencyStep gaDir a ap).getAircraft b.id =
      some { b with assigned_runway := none, state := .GO_AROUND,
                    target_position :=
                      ⟨ap.cfg.width / 2 + gaDir.x * 300,
                       ap.cfg.height / 2 + gaDir.y * 300⟩ }) ∧
    ((FuelSystem.emergencyStep gaDir a ap).getRunway r.id =
      some { r with state := .OCCUPIED_LANDING, occupied_by := some a.id }) ∧
    (∀ (ap₄ : Airport) (gaDir₄ : Position) (c : Aircraft),
      ap₄.getAvailableRunway = none →
      FuelSystem.findRunwayToClear ap₄ = none →
      FuelSystem.emergencyStep gaDir₄ c ap₄ = ap₄) ∧
    (∀ (ap₃ : Airport) (gaDirs₃ : ℕ → Position) (x : Aircraft),
      ap₃.idsNodup → x ∈ ap₃.aircraft → x.isCriticalFuel →
      x.state ≠ .GO_AROUND →
      ∀ y ∈ (FuelSystem.handleCriticalFuelEmergencies gaDirs₃ ap₃).aircraft,
        y.id = x.id → y.state ≠ .GO_AROUND) := by
  have hga_eq : FuelSystem.executeEmergencyGoAround gaDir r ap =
      (ap.updRunway r.id fun rw =>
          { rw with state := .AVAILABLE, occupied_by := none }).updAircraft
        b.id fun x =>
          { x with
            assigned_runway := none
            state := .GO_AROUND
            target_position :=
              ⟨ap.cfg.width / 2 + gaDir.x * 300,
               ap.cfg.height / 2 + gaDir.y * 300⟩ } := by
    unfold FuelSystem.executeEmergencyGoAround
    rw [hocc]
    dsimp only
    rw [hgb]
    dsimp only
    rw [if_pos hbl]
  have hfin : FuelSystem.emergencyStep gaDir a ap =
      FuelSystem.assignEmergencyLanding a.id r
        (FuelSystem.executeEmergencyGoAround gaDir r ap) := by
    unfold FuelSystem.emergencyStep
    rw [hav]
    dsimp only
    rw [hfind]
  have hne' : b.id ≠ a.id := fun h => hne h.symm
  refine ⟨?_, ?_, ?_, ?_, ?_, ?_, ?_, ?_⟩
  · intro ap₁
    exact ⟨List.sorted_insertionSort _ _, List.perm_insertionSort _ _⟩
  · intro ap₁ g
    rfl
  · intro ap₂ gaDir₂ c r₂ hn₂ hmemc hav₂
    have hfin₂ : FuelSystem.emergencyStep gaDir₂ c ap₂ =
        FuelSystem.assignEmergencyLanding c.id r₂ ap₂ := by
      unfold FuelSystem.emergencyStep
      rw [hav₂]
    rw [hfin₂]
    unfold FuelSystem.assignEmergencyLanding
    rw [getAircraft_updRunway, getAircraft_updAircraft]
    · rw [getAircraft_eq_of_mem hn₂ hmemc]
      simp
    · exact fun y => rfl
  · rw [hfin, hga_eq]
    unfold FuelSystem.assignEmergencyLanding
    rw [getAircraft_updRunway, getAircraft_updAircraft]
    · rw [getAircraft_updAircraft]
      · rw [getAircraft_updRunway, getAircraft_eq_of_mem hn hmema]
        simp [hne]
      · exact fun y => rfl
    · exact fun y => rfl
  · rw [hfin, hga_eq]
    unfold FuelSystem.assignEmergencyLanding
    rw [getAircraft_updRunway, getAircraft_updAircraft]
    · rw [getAircraft_updAircraft]
      · rw [getAircraft_updRunway, hgb]
        simp [hne']
      · exact fun y => rfl
    · exact fun y => rfl
  · have hmemr : r ∈ ap.runways := List.mem_of_find?_eq_some hfind
    rw [hfin, hga_eq]
    unfold FuelSystem.assignEmergencyLanding
    rw [getRunway_updRunway]
    · rw [getRunway_updAircraft, getRunway_updAircraft, getRunway_updRunway]
      · rw [getRunway_of_mem_nodup hrn hmemr]
        simp
      · exact fun y => rfl
    · exact fun y => rfl
  · intro ap₄ gaDir₄ c hav₄ hfind₄
    unfold FuelSystem.emergencyStep
    rw [hav₄]
    dsimp only
    rw [hfind₄]
  · intro ap₃ gaDirs₃ x hn₃ hmx hcx hgx
    have hpin : CritPinned ap₃ x.id x.fuel := by
      intro y hy hid
      rw [eq_of_mem_nodup_id hn₃ hmx hy hid]
      exact ⟨rfl, hgx⟩
    have hres := critPinned_handleCritical hcx gaDirs₃ hpin
    intro y hy hid
    exact (hres y hy hid).2

/-- The C3 scenario runway: occupied by a non-critical landing aircraft. -/
def rwC3 : Runway :=
  { id := 0, start_position := ⟨50, 400⟩, end_position := ⟨350, 400⟩,
    state := .OCCUPIED_LANDING, occupied_by := some "b1" }

/-- The C3 scenario critical aircraft (12 % fuel, `APPROACHING`). -/
def aC3 : Aircraft := mkAircraft "a1" .APPROACHING 12 ⟨600, 400⟩

/-- The C3 scenario non-critical lander occupying the only runway. -/
def bC3 : Aircraft :=
  { mkAircraft "b1" .LANDING 50 ⟨210, 400⟩ with assigned_runway := some 0 }

/-- The C3 scenario airport: one runway, zero available. -/
def apC3 : Airport := { runways := [rwC3], aircraft := [aC3, bC3] }

/-- Witness for C3 (amended): the 12 %-fuel `APPROACHING` aircraft with zero
available runways preempts the non-critical lander in one emergency step —
it is forced onto the runway, the lander is sent around. -/
theorem C3_amended_witness :
    ((FuelSystem.emergencyStep ⟨0, 1⟩ aC3 apC3).getAircraft aC3.id =
      some { aC3 with assigned_runway := some rwC3.id,
                      target_position := rwC3.centerPosition,
                      state := .LANDING }) ∧
    ((FuelSystem.emergencyStep ⟨0, 1⟩ aC3 apC3).getAircraft bC3.id =
      some { bC3 with assigned_runway := none, state := .GO_AROUND,
                      target_position :=
                        ⟨apC3.cfg.width / 2 + (⟨0, 1⟩ : Position).x * 300,
                         apC3.cfg.height / 2 +
                           (⟨0, 1⟩ : Position).y * 300⟩ }) ∧
    ((FuelSystem.emergencyStep ⟨0, 1⟩ aC3 apC3).getRunway rwC3.id =
      some { rwC3 with state := .OCCUPIED_LANDING,
                       occupied_by := some aC3.id }) := by
  have h := C3_amended apC3 ⟨0, 1⟩ aC3 bC3 rwC3
    (by decide)
    (by decide)
    (List.mem_cons_self _ _)
    (by rfl)
    (by
      unfold FuelSystem.findRunwayToClear
      rw [show apC3.runways = [rwC3] from rfl, List.find?_cons]
      have h1 : apC3.getAircraft "b1" = some bC3 := rfl
      norm_num [rwC3, h1, bC3, mkAircraft, Aircraft.isCriticalFuel])
    (by rfl)
    (by rfl)
    (by rfl)
    (by decide)
  exact ⟨h.2.2.2.1, h.2.2.2.2.1, h.2.2.2.2.2.1⟩

/-- The C3 counterexample runway: held by the non-critical lander `b1`. -/
def rwC3x : Runway :=
  { id := 0, start_position := ⟨50, 400⟩, end_position := ⟨350, 400⟩,
    state := .OCCUPIED_LANDING, occupied_by := some "b1" }

/-- The most critical of the two critical aircraft (10 % fuel). -/
def a1C3x : Aircraft := mkAircraft "p1" .APPROACHING 10 ⟨600, 400⟩

/-- The second critical aircraft: 12 % fuel, `APPROACHING`. -/
def a2C3x : Aircraft := mkAircraft "p2" .APPROACHING 12 ⟨650, 400⟩

/-- The non-critical lander occupying the only runway. -/
def bC3x : Aircraft :=
  { mkAircraft "b1" .LANDING 50 ⟨210, 400⟩ with assigned_runway := some 0 }

/-- The C3 counterexample airport: two critical aircraft, one runway held
by a non-critical lander — zero runways available. -/
def apC3x : Airport :=
  { runways := [rwC3x], aircraft := [a1C3x, a2C3x, bC3x] }

/-- The airport after the first emergency step: `p1` preempted the lander
and now holds the only runway (as a critical-fuel lander itself). -/
def apC3x1 : Airport :=
  FuelSystem.assignEmergencyLanding "p1" rwC3x
    (FuelSystem.executeEmergencyGoAround ⟨0, 1⟩ rwC3x apC3x)

/-- C3, counterexample to the claim's two-way dichotomy on a multi-emergency
tick: with two critical `APPROACHING` aircraft and the only runway held by a
non-critical lander, the most critical (`p1`, 10 %) preempts the lander, and
the second (`p2`, 12 %, zero runways available) then finds neither a free
runway nor a non-critical landing occupant (the occupant is now `p1`, itself
critical) — the full emergency pass leaves `p2` in `APPROACHING` with no
runway, i.e. it is left waiting rather than forced onto a runway. -/
theorem C3_counterexample :
    FuelSystem.criticalList apC3x = [a1C3x, a2C3x] ∧
    a2C3x.isCriticalFuel ∧ a2C3x.state = .APPROACHING ∧
    apC3x.getAvailableRunway = none ∧
    ((FuelSystem.handleCriticalFuelEmergencies (fun _ => ⟨0, 1⟩)
        apC3x).getAircraft "p2").map
      (fun x => (x.state, x.assigned_runway)) =
      some (AircraftState.APPROACHING, none) := by
  have hcrit : FuelSystem.criticalList apC3x = [a1C3x, a2C3x] := by
    norm_num [FuelSystem.criticalList, apC3x, a1C3x, a2C3x, bC3x, mkAircraft,
      Aircraft.isCriticalFuel, List.filter_cons, List.filter_nil]
  have hsort : List.insertionSort FuelSystem.fuelLe [a1C3x, a2C3x] =
      [a1C3x, a2C3x] := by
    norm_num [List.insertionSort, List.orderedInsert, FuelSystem.fuelLe,
      a1C3x, a2C3x, mkAircraft]
  have hav1 : apC3x.getAvailableRunway = none := rfl
  have hfind1 : FuelSystem.findRunwayToClear apC3x = some rwC3x := by
    unfold FuelSystem.findRunwayToClear
    rw [show apC3x.runways = [rwC3x] from rfl, List.find?_cons]
    have h1 : apC3x.getAircraft "b1" = some bC3x := rfl
    norm_num [rwC3x, h1, bC3x, mkAircraft, Aircraft.isCriticalFuel]
  have hstep1 : FuelSystem.emergencyStep ⟨0, 1⟩ a1C3x apC3x = apC3x1 := by
    unfold FuelSystem.emergencyStep
    rw [hav1]
    dsimp only
    rw [hfind1]
    rfl
  have hga2 : apC3x1.getAircraft "p1" =
      some { a1C3x with assigned_runway := some 0,
                        target_position := rwC3x.centerPosition,
                        state := .LANDING } := rfl
  have hav2 : apC3x1.getAvailableRunway = none := rfl
  have hfind2 : FuelSystem.findRunwayToClear apC3x1 = none := by
    unfold FuelSystem.findRunwayToClear
    rw [show apC3x1.runways =
      [{ rwC3x with state := .OCCUPIED_LANDING,
                    occupied_by := some "p1" }] from rfl, List.find?_cons]
    norm_num [rwC3x, hga2, a1C3x, mkAircraft, Aircraft.isCriticalFuel]
  have hstep2 : FuelSystem.emergencyStep ⟨0, 1⟩ a2C3x apC3x1 = apC3x1 := by
    unfold FuelSystem.emergencyStep
    rw [hav2]
    dsimp only
    rw [hfind2]
  have hfold : FuelSystem.handleCriticalFuelEmergencies (fun _ => ⟨0, 1⟩)
      apC3x =
      FuelSystem.emergencyStep ⟨0, 1⟩ a2C3x
        (FuelSystem.emergencyStep ⟨0, 1⟩ a1C3x apC3x) := by
    unfold FuelSystem.handleCriticalFuelEmergencies
    rw [hcrit, hsort]
    rfl
  refine ⟨hcrit,
    by norm_num [a2C3x, mkAircraft, Aircraft.isCriticalFuel],
    rfl, hav1, ?_⟩
  rw [hfold, hstep1, hstep2]
  rfl

/-! ## Claim C9: CRASHED and DEPARTED are terminal -/

theorem update_state (cfg : AirportCfg) (a : Aircraft) (dt d : ℚ) :
    (a.update cfg dt d).state = a.state := by
  unfold Aircraft.update Aircraft.consumeFuel
  dsimp only
  split <;> rfl

theorem update_id (cfg : AirportCfg) (a : Aircraft) (dt d : ℚ) :
    (a.update cfg dt d).id = a.id := by
  unfold Aircraft.update Aircraft.consumeFuel
  dsimp only
  split <;> rfl

theorem updateRefueling_state (a : Aircraft) (t : ℚ) :
    (a.updateRefueling t).state = a.state := by
  unfold Aircraft.updateRefueling
  split
  · rcases a.refuel_start_time with _ | s <;>
      rcases a.target_fuel_level with _ | tg <;>
        rcases a.fuel_at_arrival with _ | fa <;> first | rfl | (simp only; split <;> rfl)
  · rfl

theorem updateRefueling_id (a : Aircraft) (t : ℚ) :
    (a.updateRefueling t).id = a.id := by
  unfold Aircraft.updateRefueling
  split
  · rcases a.refuel_start_time with _ | s <;>
      rcases a.target_fuel_level with _ | tg <;>
        rcases a.fuel_at_arrival with _ | fa <;> first | rfl | (simp only; split <;> rfl)
  · rfl

theorem statePinned_map {ap : Airport} {i : String} {s : AircraftState}
    (f : Aircraft → Aircraft) (hfid : ∀ y, (f y).id = y.id)
    (hfst : ∀ y, y.id = i → y.state = s → (f y).state = s)
    (h : StatePinned ap i s) :
    StatePinned ({ ap with aircraft := ap.aircraft.map f } : Airport) i s := by
  intro x hx hid
  simp only [List.mem_map] at hx
  obtain ⟨y, hy, rfl⟩ := hx
  rw [hfid y] at hid
  exact hfst y hid (h y hy hid)

/-- A terminal state. -/
def IsTerminal (s : AircraftState) : Prop :=
  s = .CRASHED ∨ s = .DEPARTED

theorem statePinned_airport_update {ap : Airport} {i : String}
    {s : AircraftState} (dt : ℚ) (dOf : String → ℚ)
    (h : StatePinned ap i s) : StatePinned (ap.update dt dOf) i s := by
  intro x hx hid
  simp only [Airport.update, List.mem_map] at hx
  obtain ⟨y, hy, rfl⟩ := hx
  rw [update_id] at hid
  rw [update_state]
  exact h y hy hid

theorem statePinned_monitor {ap : Airport} {i : String} {s : AircraftState}
    (hterm : IsTerminal s) (h : StatePinned ap i s) :
    StatePinned (FuelSystem.monitorFuelLevels ap) i s := by
  refine statePinned_map _ ?_ ?_ h
  · intro y
    split
    · rfl
    · split <;> rfl
  · intro y hid hys
    rw [if_pos]
    · exact hys
    · rcases hterm with h1 | h1 <;> rw [hys, h1] <;> simp

theorem foldl_statePinned_mem {α : Type} {i : String} {s : AircraftState}
    (step : Airport → α → Airport) :
    ∀ (l : List α),
      (∀ acc x, x ∈ l → StatePinned acc i s → StatePinned (step acc x) i s) →
      ∀ acc, StatePinned acc i s → StatePinned (l.foldl step acc) i s
  | [], _, _, h => h
  | x :: xs, hstep, acc, h =>
      foldl_statePinned_mem step xs
        (fun acc' y hy => hstep acc' y (List.mem_cons_of_mem x hy))
        (step acc x) (hstep acc x (List.mem_cons_self x xs) h)

theorem mem_of_mem_allPairs {α : Type} :
    ∀ {l : List α} {p : α × α}, p ∈ allPairs l → p.1 ∈ l ∧ p.2 ∈ l
  | [], _, hp => absurd hp (by simp [allPairs])
  | x :: xs, p, hp => by
      simp only [allPairs, List.mem_append, List.mem_map] at hp
      rcases hp with ⟨y, hy, rfl⟩ | hp
      · exact ⟨List.mem_cons_self x xs, List.mem_cons_of_mem x hy⟩
      · have := mem_of_mem_allPairs hp
        exact ⟨List.mem_cons_of_mem x this.1, List.mem_cons_of_mem x this.2⟩

theorem mem_of_mem_enumFrom {α : Type} :
    ∀ {l : List α} {n : ℕ} {p : ℕ × α}, p ∈ l.enumFrom n → p.2 ∈ l
  | [], _, _, hp => absurd hp (by simp)
  | x :: xs, n, p, hp => by
      simp only [List.enumFrom, List.mem_cons] at hp
      rcases hp with rfl | hp
      · exact List.mem_cons_self x xs
      · exact List.mem_cons_of_mem x (mem_of_mem_enumFrom hp)

theorem terminal_not_mem_criticalList {ap : Airport} {i : String}
    {s : AircraftState} (hterm : IsTerminal s) (hp : StatePinned ap i s) :
    ∀ c ∈ FuelSystem.criticalList ap, c.id ≠ i := by
  intro c hc hci
  rcases List.mem_filter.mp hc with ⟨hmem, hpred⟩
  have hcs := hp c hmem hci
  simp only [Bool.and_eq_true, Bool.or_eq_true, decide_eq_true_eq] at hpred
  rcases hterm with h1 | h1 <;> rw [hcs, h1] at hpred <;>
    rcases hpred.2 with h2 | h2 <;> cases h2

theorem terminal_not_mem_active {ap : Airport} {i : String}
    {s : AircraftState} (hterm : IsTerminal s) (hp : StatePinned ap i s) :
    ∀ c ∈ CollisionSystem.activeAircraft ap, c.id ≠ i := by
  intro c hc hci
  rcases List.mem_filter.mp hc with ⟨hmem, hpred⟩
  have hcs := hp c hmem hci
  simp only [Bool.and_eq_true, Bool.not_eq_true', decide_eq_false_iff_not] at hpred
  rcases hterm with h1 | h1 <;> rw [hcs, h1] at hpred
  · exact hpred.1 rfl
  · exact hpred.2 rfl

theorem statePinned_assignEmergencyLanding {ap : Airport} {i : String}
    {s : AircraftState} {planeId : String} {r : Runway}
    (hne : planeId ≠ i) (hp : StatePinned ap i s) :
    StatePinned (FuelSystem.assignEmergencyLanding planeId r ap) i s := by
  unfold FuelSystem.assignEmergencyLanding
  refine statePinned_updRunway (statePinned_updAircraft_ne hp ?_ hne)
  intro y
  rfl

theorem statePinned_executeEmergencyGoAround {ap : Airport} {i : String}
    {s : AircraftState} (hterm : IsTerminal s) (gaDir : Position) (r : Runway)
    (hp : StatePinned ap i s) :
    StatePinned (FuelSystem.executeEmergencyGoAround gaDir r ap) i s := by
  unfold FuelSystem.executeEmergencyGoAround
  rcases hocc : r.occupied_by with _ | occId
  · exact hp
  · dsimp only
    rcases hga : ap.getAircraft occId with _ | occ
    · exact hp
    · dsimp only
      by_cases hland : occ.state = AircraftState.LANDING
      · rw [if_pos hland]
        have hoccne : occId ≠ i := by
          intro h
          have hocce : occ.state = s :=
            hp occ (getAircraft_mem hga) ((getAircraft_id hga).trans h)
          rw [hland] at hocce
          rcases hterm with h1 | h1 <;> rw [h1] at hocce <;> cases hocce
        refine statePinned_updAircraft_ne (statePinned_updRunway hp) ?_ hoccne
        intro y
        rfl
      · rw [if_neg hland]
        exact hp

theorem statePinned_emergencyStep {ap : Airport} {i : String}
    {s : AircraftState} {plane : Aircraft} (hterm : IsTerminal s)
    (hne : plane.id ≠ i) (gaDir : Position) (hp : StatePinned ap i s) :
    StatePinned (FuelSystem.emergencyStep gaDir plane ap) i s := by
  unfold FuelSystem.emergencyStep
  cases ap.getAvailableRunway with
  | some r => exact statePinned_assignEmergencyLanding hne hp
  | none =>
      cases FuelSystem.findRunwayToClear ap with
      | some r =>
          exact statePinned_assignEmergencyLanding hne
            (statePinned_executeEmergencyGoAround hterm gaDir r hp)
      | none => exact hp

theorem statePinned_handleCritical {ap : Airport} {i : String}
    {s : AircraftState} (hterm : IsTerminal s) (gaDirs : ℕ → Position)
    (hp : StatePinned ap i s) :
    StatePinned (FuelSystem.handleCriticalFuelEmergencies gaDirs ap) i s := by
  unfold FuelSystem.handleCriticalFuelEmergencies
  refine foldl_statePinned_mem _ _ ?_ ap hp
  intro acc p hpmem hacc
  have hp2 : p.2 ∈ List.insertionSort FuelSystem.fuelLe
      (FuelSystem.criticalList ap) := mem_of_mem_enumFrom hpmem
  have hp3 : p.2 ∈ FuelSystem.criticalList ap :=
    (List.perm_insertionSort FuelSystem.fuelLe
      (FuelSystem.criticalList ap)).mem_iff.mp hp2
  exact statePinned_emergencyStep hterm
    (terminal_not_mem_criticalList hterm hp p.2 hp3) (gaDirs p.1) hacc

theorem foldl_inv_mem {α β : Type} (P : β → Prop) (step : β → α → β) :
    ∀ (l : List α), (∀ acc x, x ∈ l → P acc → P (step acc x)) →
      ∀ acc, P acc → P (l.foldl step acc)
  | [], _, _, h => h
  | x :: xs, hstep, acc, h =>
      foldl_inv_mem P step xs
        (fun a y hy => hstep a y (List.mem_cons_of_mem x hy))
        (step acc x) (hstep acc x (List.mem_cons_self x xs) h)

theorem statePinned_collisionsPass {ap : Airport} {i : String}
    {s : AircraftState} (hterm : IsTerminal s) (hp : StatePinned ap i s) :
    StatePinned (CollisionSystem.collisionsPass ap) i s := by
  unfold CollisionSystem.collisionsPass CollisionSystem.handleCollisions
  refine foldl_statePinned_mem _ _ ?_ ap hp
  intro acc p hpmem hacc
  unfold CollisionSystem.checkCollisions at hpmem
  have hcomp := mem_of_mem_allPairs (List.mem_filter.mp hpmem).1
  have h1 : p.1.id ≠ i := terminal_not_mem_active hterm hp p.1 hcomp.1
  have h2 : p.2.id ≠ i := terminal_not_mem_active hterm hp p.2 hcomp.2
  refine statePinned_updAircraft_ne (statePinned_updAircraft_ne hacc ?_ h1)
    ?_ h2 <;> intro y <;> rfl

theorem statePinned_executeSmartAvoidance {ap : Airport} {i : String}
    {s : AircraftState} {j : String} (pos : Position) (hj : j ≠ i)
    (hp : StatePinned ap i s) :
    StatePinned (CollisionSystem.executeSmartAvoidance ap j pos) i s := by
  unfold CollisionSystem.executeSmartAvoidance
  refine statePinned_updAircraft_ne hp ?_ hj
  intro y
  rfl

theorem statePinned_executeEmergencyAvoidance {ap : Airport} {i : String}
    {s : AircraftState} {a1 a2 : Aircraft} (d : ℚ) (h1 : a1.id ≠ i)
    (h2 : a2.id ≠ i) (hp : StatePinned ap i s) :
    StatePinned (CollisionSystem.executeEmergencyAvoidance a1 a2 d ap) i s := by
  unfold CollisionSystem.executeEmergencyAvoidance
  split
  · dsimp only
    refine statePinned_updAircraft_ne (statePinned_updAircraft_ne hp ?_ h1)
      ?_ h2 <;> intro y <;> rfl
  · exact hp

theorem selectAvoidanceAircraft_cases (a1 a2 : Aircraft) :
    CollisionSystem.selectAvoidanceAircraft a1 a2 = a1 ∨
      CollisionSystem.selectAvoidanceAircraft a1 a2 = a2 := by
  unfold CollisionSystem.selectAvoidanceAircraft
  split_ifs <;> first | exact Or.inl rfl | exact Or.inr rfl

theorem advisoryTier_airport (cs : CollisionSys) (ap : Airport)
    (pairs : List (Aircraft × Aircraft)) (a1 a2 : Aircraft) :
    (CollisionSystem.advisoryTier cs ap pairs a1 a2).2.1 = ap := by
  unfold CollisionSystem.advisoryTier
  split
  · dsimp only
    split <;> rfl
  · rfl

theorem statePinned_imminentStep {i : String} {s : AircraftState}
    (dOf : String → String → ℚ) (ringDirs : ℕ → Position)
    (activeIds : List String) (hids : ∀ j ∈ activeIds, j ≠ i)
    (acc : CollisionSys × Airport × List (Aircraft × Aircraft))
    (p : String × String) (hp1 : p.1 ∈ activeIds) (hp2 : p.2 ∈ activeIds)
    (hp : StatePinned acc.2.1 i s) :
    StatePinned
      ((CollisionSystem.imminentStep dOf ringDirs activeIds acc p).2.1) i s := by
  unfold CollisionSystem.imminentStep
  dsimp only
  rcases hga1 : acc.2.1.getAircraft p.1 with _ | a1
  · exact hp
  · rcases hga2 : acc.2.1.getAircraft p.2 with _ | a2
    · exact hp
    · dsimp only
      have h1 : a1.id ≠ i := (getAircraft_id hga1) ▸ hids p.1 hp1
      have h2 : a2.id ≠ i := (getAircraft_id hga2) ▸ hids p.2 hp2
      split
      · split
        · exact statePinned_executeEmergencyAvoidance (dOf p.1 p.2) h1 h2 hp
        · rw [advisoryTier_airport]
          exact hp
      · split
        · split
          · refine statePinned_executeSmartAvoidance _ ?_ hp
            rcases selectAvoidanceAircraft_cases a1 a2 with h | h <;> rw [h]
            · exact h1
            · exact h2
          · rw [advisoryTier_airport]
            exact hp
        · rw [advisoryTier_airport]
          exact hp

theorem statePinned_checkImminent {ap : Airport} {i : String}
    {s : AircraftState} (hterm : IsTerminal s) (dOf : String → String → ℚ)
    (ringDirs : ℕ → Position) (cs : CollisionSys) (hp : StatePinned ap i s) :
    StatePinned
      ((CollisionSystem.checkImminentCollisions dOf ringDirs cs ap).2.1) i s := by
  unfold CollisionSystem.checkImminentCollisions
  dsimp only
  have hids : ∀ j ∈ (CollisionSystem.activeAircraft ap).map Aircraft.id,
      j ≠ i := by
    intro j hj
    rcases List.mem_map.mp hj with ⟨c, hc, rfl⟩
    exact terminal_not_mem_active hterm hp c hc
  refine foldl_inv_mem
    (fun (acc : CollisionSys × Airport × List (Aircraft × Aircraft)) =>
      StatePinned acc.2.1 i s)
    (CollisionSystem.imminentStep dOf ringDirs
      ((CollisionSystem.activeAircraft ap).map Aircraft.id))
    (allPairs ((CollisionSystem.activeAircraft ap).map Aircraft.id)) ?_
    (cs, ap, []) hp
  intro acc p hpmem hacc
  have hcomp := mem_of_mem_allPairs hpmem
  exact statePinned_imminentStep dOf ringDirs _ hids acc p hcomp.1 hcomp.2 hacc

theorem statePinned_handleLandingCompletion {ap : Airport} {i : String}
    {s : AircraftState} {a : Aircraft} (hane : a.id ≠ i)
    (hp : StatePinned ap i s) :
    StatePinned (StateManager.handleLandingCompletion a ap) i s := by
  unfold StateManager.handleLandingCompletion
  rcases ap.getAvailableGate with _ | g
  · exact hp
  · dsimp only
    rcases a.assigned_runway with _ | rid
    · refine statePinned_updGate (statePinned_updAircraft_ne hp ?_ hane)
      intro y
      rfl
    · refine statePinned_updGate
        (statePinned_updAircraft_ne (statePinned_updRunway hp) ?_ hane)
      intro y
      rfl

theorem statePinned_handleGateArrival {ap : Airport} {i : String}
    {s : AircraftState} {aid : String} (draws : ℚ × ℚ × ℚ) (haid : aid ≠ i)
    (hp : StatePinned ap i s) :
    StatePinned (StateManager.handleGateArrival draws aid ap) i s := by
  unfold StateManager.handleGateArrival
  refine statePinned_updAircraft_ne hp ?_ haid
  intro y
  rfl

theorem statePinned_handleTakeoffStart {ap : Airport} {i : String}
    {s : AircraftState} {a : Aircraft} (lenOf : ℤ → ℚ) (hane : a.id ≠ i)
    (hp : StatePinned ap i s) :
    StatePinned (StateManager.handleTakeoffStart lenOf a ap) i s := by
  unfold StateManager.handleTakeoffStart
  dsimp only
  rcases a.assigned_runway with _ | rid
  · refine statePinned_updAircraft_ne hp ?_ hane
    intro y
    rfl
  · dsimp only
    split
    · refine statePinned_updAircraft_ne
        (statePinned_updAircraft_ne hp ?_ hane) ?_ hane <;> intro y <;> rfl
    · refine statePinned_updAircraft_ne hp ?_ hane
      intro y
      rfl

theorem statePinned_handleTakeoffCompletion {ap : Airport} {i : String}
    {s : AircraftState} {a : Aircraft} (hane : a.id ≠ i)
    (hp : StatePinned ap i s) :
    StatePinned (StateManager.handleTakeoffCompletion a ap) i s := by
  unfold StateManager.handleTakeoffCompletion
  split
  · dsimp only
    rcases a.assigned_runway with _ | rid
    · refine statePinned_updAircraft_ne hp ?_ hane
      intro y
      rfl
    · refine statePinned_updRunway (statePinned_updAircraft_ne hp ?_ hane)
      intro y
      rfl
  · exact hp

theorem statePinned_handleStateTransition {ap : Airport} {i : String}
    {s : AircraftState} (hterm : IsTerminal s) (draws : ℚ × ℚ × ℚ)
    (lenOf : ℤ → ℚ) (aid : String) (hp : StatePinned ap i s) :
    StatePinned (StateManager.handleStateTransition draws lenOf aid ap) i s := by
  unfold StateManager.handleStateTransition
  rcases hga : ap.getAircraft aid with _ | a
  · exact hp
  · dsimp only
    by_cases haid : aid = i
    · have has : a.state = s :=
        hp a (getAircraft_mem hga) ((getAircraft_id hga).trans haid)
      rcases hterm with h1 | h1 <;> rw [has, h1] <;>
        exact fun x hx hid => h1 ▸ hp x hx hid
    · have hane : a.id ≠ i := fun h => haid ((getAircraft_id hga).symm.trans h)
      cases a.state
      · exact hp
      · exact statePinned_handleLandingCompletion hane hp
      · refine statePinned_updAircraft_ne hp ?_ haid
        intro y
        rfl
      · exact statePinned_handleGateArrival draws haid hp
      · exact hp
      · exact hp
      · exact statePinned_handleTakeoffStart lenOf hane hp
      · exact statePinned_handleTakeoffCompletion hane hp
      · exact hp
      · exact hp
      · exact hp

theorem statePinned_updateAircraftStates {ap : Airport} {i : String}
    {s : AircraftState} (hterm : IsTerminal s) (draws : String → ℚ × ℚ × ℚ)
    (lenOf : ℤ → ℚ) (hp : StatePinned ap i s) :
    StatePinned (StateManager.updateAircraftStates draws lenOf ap) i s := by
  unfold StateManager.updateAircraftStates
  dsimp only
  have hmapped : StatePinned
      ({ ap with
         aircraft := ap.aircraft.map fun (a : Aircraft) =>
           if a.state = AircraftState.BOARDING_DEBOARDING then
             a.updateRefueling ap.current_time
           else a } : Airport) i s := by
    refine statePinned_map _ ?_ ?_ hp
    · intro y
      split
      · exact updateRefueling_id y ap.current_time
      · rfl
    · intro y hid hys
      split
      · rw [updateRefueling_state]
        exact hys
      · exact hys
  refine foldl_statePinned_mem _ _ ?_ _ hmapped
  intro acc aid _ hacc
  rcases acc.getAircraft aid with _ | a
  · exact hacc
  · dsimp only
    split
    · exact statePinned_handleStateTransition hterm (draws aid) lenOf aid hacc
    · exact hacc

theorem statePinned_assignGates {ap : Airport} {i : String}
    {s : AircraftState} (hterm : IsTerminal s) (hp : StatePinned ap i s) :
    StatePinned (StateManager.assignGatesToWaitingAircraft ap) i s := by
  unfold StateManager.assignGatesToWaitingAircraft
  refine foldl_statePinned_mem _ _ ?_ ap hp
  intro acc aid hmem hacc
  have haid : aid ≠ i := by
    rcases List.mem_map.mp hmem with ⟨c, hc, rfl⟩
    rcases List.mem_filter.mp hc with ⟨hcm, hpred⟩
    intro h
    have hcs := hp c hcm h
    simp only [Bool.and_eq_true, decide_eq_true_eq] at hpred
    rcases hterm with h1 | h1 <;> rw [hcs, h1] at hpred <;> cases hpred.1
  rcases acc.getAircraft aid with _ | a
  · exact hacc
  · dsimp only
    rcases a.assigned_runway with _ | rid
    · exact hacc
    · dsimp only
      split
      · split
        · split
          · refine statePinned_updRunway (statePinned_updGate
              (statePinned_updAircraft_ne hacc ?_ haid))
            intro y
            rfl
          · exact hacc
        · exact hacc
      · exact hacc

theorem statePinned_moveToHoldingArea {ap : Airport} {i : String}
    {s : AircraftState} {aid : String} (dir : Position) (haid : aid ≠ i)
    (hp : StatePinned ap i s) :
    StatePinned (StateManager.moveToHoldingArea dir aid ap) i s := by
  unfold StateManager.moveToHoldingArea
  rcases ap.getAircraft aid with _ | a
  · exact hp
  · dsimp only
    rcases a.assigned_gate with _ | gid
    · refine statePinned_updAircraft_ne hp ?_ haid
      intro y
      rfl
    · dsimp only
      refine statePinned_updAircraft_ne (statePinned_updAircraft_ne
        (statePinned_updGate hp) ?_ haid) ?_ haid <;> intro y <;> rfl

theorem statePinned_depLoop {i : String} {s : AircraftState}
    (hterm : IsTerminal s) (depDraw : String → ℚ)
    (holdDirFor : String → Position) :
    ∀ (l : List String) (ap : Airport), StatePinned ap i s →
      StatePinned (StateManager.depLoop depDraw holdDirFor l ap) i s
  | [], _, hp => hp
  | aid :: rest, ap, hp => by
      unfold StateManager.depLoop
      rcases hga : ap.getAircraft aid with _ | a
      · exact statePinned_depLoop hterm depDraw holdDirFor rest ap hp
      · dsimp only
        by_cases hat : a.state = AircraftState.AT_GATE
        · rw [if_pos hat]
          have haid : aid ≠ i := by
            intro h
            have hcs := hp a (getAircraft_mem hga) ((getAircraft_id hga).trans h)
            rw [hat] at hcs
            rcases hterm with h1 | h1 <;> rw [h1] at hcs <;> cases hcs
          split
          · split
            · rcases a.assigned_gate with _ | gid
              · refine statePinned_updRunway
                  (statePinned_updAircraft_ne hp ?_ haid)
                intro y
                rfl
              · refine statePinned_updRunway (statePinned_updAircraft_ne
                  (statePinned_updGate hp) ?_ haid)
                intro y
                rfl
            · split
              · refine statePinned_moveToHoldingArea _ haid
                  (statePinned_updAircraft_ne hp ?_ haid)
                intro y
                rfl
              · exact statePinned_depLoop hterm depDraw holdDirFor rest ap hp
          · exact statePinned_depLoop hterm depDraw holdDirFor rest ap hp
        · rw [if_neg hat]
          exact statePinned_depLoop hterm depDraw holdDirFor rest ap hp

theorem statePinned_scheduleDepartures {ap : Airport} {i : String}
    {s : AircraftState} (hterm : IsTerminal s) (depDraw : String → ℚ)
    (holdDirFor : String → Position) (hp : StatePinned ap i s) :
    StatePinned (StateManager.scheduleDepartures depDraw holdDirFor ap) i s := by
  unfold StateManager.scheduleDepartures
  dsimp only
  refine statePinned_depLoop hterm depDraw holdDirFor _ _ ?_
  refine statePinned_map _ ?_ ?_ hp
  · intro y
    split <;> rfl
  · intro y hid hys
    rw [if_neg]
    · exact hys
    · rcases hterm with h1 | h1 <;> rw [hys, h1] <;> simp

theorem statePinned_holdingLoop {i : String} {s : AircraftState} :
    ∀ (l : List String), (∀ j ∈ l, j ≠ i) → ∀ (ap : Airport),
      StatePinned ap i s → StatePinned (StateManager.holdingLoop l ap) i s
  | [], _, _, hp => hp
  | aid :: rest, hids, ap, hp => by
      unfold StateManager.holdingLoop
      rcases ap.getAvailableRunway with _ | rwy
      · exact statePinned_holdingLoop rest
          (fun j hj => hids j (List.mem_cons_of_mem aid hj)) ap hp
      · dsimp only
        refine statePinned_updRunway (statePinned_updAircraft_ne hp ?_
          (hids aid (List.mem_cons_self aid rest)))
        intro y
        rfl

theorem statePinned_processHolding {ap : Airport} {i : String}
    {s : AircraftState} (hterm : IsTerminal s) (hp : StatePinned ap i s) :
    StatePinned (StateManager.processHoldingAircraft ap) i s := by
  unfold StateManager.processHoldingAircraft
  refine statePinned_holdingLoop _ ?_ ap hp
  intro j hj
  rcases List.mem_map.mp hj with ⟨c, hc, rfl⟩
  rcases List.mem_filter.mp hc with ⟨hcm, hpred⟩
  intro h
  have hcs := hp c hcm h
  simp only [Bool.and_eq_true, decide_eq_true_eq] at hpred
  rcases hterm with h1 | h1 <;> rw [hcs, h1] at hpred <;> cases hpred.1

/-- A crashed aircraft, shared by the C9 scenario theorems. -/
def cC9 : Aircraft := mkAircraft "c1" .CRASHED 0 ⟨200, 200⟩

/-- A one-aircraft airport whose only aircraft has crashed. -/
def apC9 : Airport := { runways := [], aircraft := [cC9] }

/-- An available runway for the C9 counterexample. -/
def rwC9 : Runway :=
  { id := 0, start_position := ⟨100, 100⟩, end_position := ⟨300, 100⟩ }

/-- The C9 counterexample airport: one available runway, one crashed
aircraft. -/
def apC9x : Airport := { runways := [rwC9], aircraft := [cC9] }

/-- C9, counterexample to the unrestricted claim: `process_atc_decision`
dispatches on the action without ever checking the aircraft's state, so an
`assign_landing` command addressed to a CRASHED aircraft sets its state to
LANDING — a transition out of the supposedly terminal state.  (The same
holds for DEPARTED and for the other commands.) -/
theorem C9_counterexample :
    cC9.state = AircraftState.CRASHED ∧
    ((SimulationEngine.processAtcDecision (fun _ => ⟨1, 0⟩) ⟨1, 0⟩ ⟨1, 0⟩
        apC9x "c1" "assign_landing" (.tint 0)).1.getAircraft "c1").map
      Aircraft.state = some AircraftState.LANDING :=
  ⟨rfl, rfl⟩

/-- C9 (amended): CRASHED and DEPARTED are terminal for every *automatic*
pass of the per-tick step: the movement update, the refueling/state
transition pass, fuel monitoring, the critical-fuel emergency loop, the
crash collision tier, the imminent-collision tiers, gate assignment,
departure scheduling and holding promotion all leave the state of an
aircraft that is CRASHED or DEPARTED unchanged (every aircraft entry with
its id keeps the same state).  Manual command processing is the exception
(`C9_counterexample`). -/
theorem C9_amended (ap : Airport) (a : Aircraft) (hn : ap.idsNodup)
    (ha : a ∈ ap.aircraft) (ht : IsTerminal a.state)
    (dt : ℚ) (dOf : String → ℚ) (draws : String → ℚ × ℚ × ℚ) (lenOf : ℤ → ℚ)
    (gaDirs : ℕ → Position) (pairD : String → String → ℚ)
    (ringDirs : ℕ → Position) (cs : CollisionSys)
    (depDraw : String → ℚ) (holdDirFor : String → Position) :
    StatePinned (ap.update dt dOf) a.id a.state ∧
    StatePinned (StateManager.updateAircraftStates draws lenOf ap)
      a.id a.state ∧
    StatePinned (FuelSystem.monitorFuelLevels ap) a.id a.state ∧
    StatePinned (FuelSystem.handleCriticalFuelEmergencies gaDirs ap)
      a.id a.state ∧
    StatePinned (CollisionSystem.collisionsPass ap) a.id a.state ∧
    StatePinned
      ((CollisionSystem.checkImminentCollisions pairD ringDirs cs ap).2.1)
      a.id a.state ∧
    StatePinned (StateManager.assignGatesToWaitingAircraft ap) a.id a.state ∧
    StatePinned (StateManager.scheduleDepartures depDraw holdDirFor ap)
      a.id a.state ∧
    StatePinned (StateManager.processHoldingAircraft ap) a.id a.state := by
  have hp := statePinned_of_mem hn ha
  exact ⟨statePinned_airport_update dt dOf hp,
    statePinned_updateAircraftStates ht draws lenOf hp,
    statePinned_monitor ht hp,
    statePinned_handleCritical ht gaDirs hp,
    statePinned_collisionsPass ht hp,
    statePinned_checkImminent ht pairD ringDirs cs hp,
    statePinned_assignGates ht hp,
    statePinned_scheduleDepartures ht depDraw holdDirFor hp,
    statePinned_processHolding ht hp⟩

/-- Witness for `C9_amended`: the one-crashed-aircraft airport satisfies
all hypotheses, and the fuel-monitoring pass keeps the aircraft CRASHED. -/
theorem C9_amended_witness :
    apC9.idsNodup ∧ cC9 ∈ apC9.aircraft ∧ IsTerminal cC9.state ∧
    StatePinned (FuelSystem.monitorFuelLevels apC9) cC9.id cC9.state :=
  ⟨by decide, List.mem_cons_self cC9 [], Or.inl rfl,
    (C9_amended apC9 cC9 (by decide) (List.mem_cons_self cC9 [])
      (Or.inl rfl) 0 (fun _ => 0) (fun _ => (0, 0, 0)) (fun _ => 1)
      (fun _ => ⟨1, 0⟩) (fun _ _ => 1) (fun _ => ⟨1, 0⟩) {} (fun _ => 0)
      (fun _ => ⟨1, 0⟩)).2.2.1⟩
